import Mathlib

/-!
Verification development for the QGIS server monitoring dashboard
(src/monitor.py).  The per-pool ingestion state machine, the slowest-list
maintenance and the sliding-window statistics are embedded shallowly.

Modelling conventions, fixed throughout:

* Time.  The source works with `time.time()` float seconds and derives
  tracking-key timestamps with `int(now * 1000)`.  We model one global
  clock in integer milliseconds (`now : Nat`); second-valued
  configuration constants are scaled by 1000.  Subtraction on `Nat` is
  truncated, which agrees with the source for all realistic clock values
  (clock far larger than any window).
* Pools.  Every piece of mutable state in the source is a dict indexed by
  the pool name (`log_name`), and every access in the functions embedded
  here goes through that one index.  We therefore embed the state of one
  pool (`PoolState`) and let the parse functions act on it directly;
  distinct pools never share state.
* Lines.  Substring tests (Python `in`) operate on the raw line text and
  are modelled faithfully on the character list of the line.  The five
  regular-expression extractions are modelled as fields of `Line`
  carrying the captured group, `none` when the search fails.
* Python dicts preserve insertion order; they are modelled as
  association lists where assignment to a fresh key appends and
  assignment to an existing key updates in place.
* `deque(maxlen=N)` is modelled by `dequeAppend`, evicting from the
  front on overflow.
* Python's `list.sort` / `sorted` are stable; they are modelled by
  `List.insertionSort`, which is stable for the same preorder and hence
  produces the identical list.
-/

/-- Model of Python `needle in hay` on character lists: some suffix of
`hay` starts with `needle`. -/
def listContainsB (needle : List Char) : List Char → Bool
  | [] => needle.isPrefixOf []
  | c :: hay => needle.isPrefixOf (c :: hay) || listContainsB needle hay

/-- Model of Python `needle in hay` for strings. -/
def pyIn (needle hay : String) : Bool :=
  listContainsB needle.data hay.data

/-- Model of Python `s.startswith(pre)`. -/
def pyStartsWith (s pre : String) : Bool :=
  pre.data.isPrefixOf s.data

/-- Model of Python `str.split(sep)` with a one-character separator (used
as `map_path.split('/')` and, through `keyMs`, `key.split('_')`). -/
def splitChar (sep : Char) (l : List Char) : List (List Char) :=
  l.foldr
    (fun c acc =>
      match acc with
      | [] => if c = sep then [[], []] else [[c]]
      | a :: rest => if c = sep then [] :: a :: rest else (c :: a) :: rest)
    [[]]

/-- Decimal value of a digit string, i.e. Python `int(s)` on the digit
strings produced by the tracker keys. -/
def strToNat (l : List Char) : Nat :=
  l.foldl (fun a c => a * 10 + (c.toNat - 48)) 0

/-- Fuel-driven decimal rendering helper (structural recursion so that
concrete keys evaluate inside the kernel). -/
def digitsAux : Nat → Nat → List Char → List Char
  | 0, _, acc => acc
  | fuel + 1, n, acc =>
    if n < 10 then Nat.digitChar n :: acc
    else digitsAux fuel (n / 10) (Nat.digitChar (n % 10) :: acc)

/-- Decimal rendering of a natural number, the model of the Python
f-string interpolation `f"{int(now * 1000)}"`. -/
def natToDigits (n : Nat) : List Char :=
  digitsAux (n + 1) n []

/-- Tracking key `f"{request_id}_{int(now * 1000)}"` (monitor.py lines
353 and 371). -/
def mkKey (rid : String) (ms : Nat) : String :=
  rid ++ "_" ++ (natToDigits ms).asString

/-- Model of `int(k.split('_')[1])` (monitor.py lines 368 and 430): the
decimal value of the characters between the first underscore and the
following underscore or end of key. -/
def keyMs (k : String) : Nat :=
  strToNat (((k.data.dropWhile (fun c => c != '_')).drop 1).takeWhile (fun c => c != '_'))

/-- Model of Python `s.replace('.qgs', '')` at the character level: every
(leftmost, non-overlapping) occurrence of `.qgs` is removed. -/
def replaceQgs : List Char → List Char
  | '.' :: 'q' :: 'g' :: 's' :: rest => replaceQgs rest
  | c :: cs => c :: replaceQgs cs
  | [] => []

/-- Project name derived from a MAP path (monitor.py line 388):
`map_path.split('/')[-1].replace('.qgs', '')`. -/
def projectNameOfPath (path : String) : String :=
  (replaceQgs ((splitChar '/' path.data).getLastD [])).asString

/-- Modelled from the spec: "project name = last path segment, extension
stripped" — the last path segment with one trailing `.qgs` extension
removed.  Stated only to compare the spec's wording with
`projectNameOfPath`, which the source actually computes. -/
def specProjectName (path : String) : String :=
  let seg := (splitChar '/' path.data).getLastD []
  if (".qgs".data.reverse).isPrefixOf seg.reverse then
    (seg.take (seg.length - 4)).asString
  else seg.asString

/-- Model of Python `s.strip()` (ASCII whitespace suffices for the log
lines considered). -/
def pyStrip (l : List Char) : List Char :=
  ((l.dropWhile Char.isWhitespace).reverse.dropWhile Char.isWhitespace).reverse

/-- Model of `line.strip()[:200]` (monitor.py lines 328, 335, 527, 534). -/
def pyTruncStrip (s : String) : String :=
  ((pyStrip s.data).take 200).asString

/-- Model of Python `s.strip()` on strings (layers field, line 401). -/
def pyStripStr (s : String) : String :=
  (pyStrip s.data).asString

/-- Model of Python `s.upper()` (ASCII). -/
def pyUpper (s : String) : String :=
  (s.data.map Char.toUpper).asString

/-- Model of Python `max(l, key=f)` for nonempty `l`: the first element
with maximal `f`-value (later elements replace the running best only on
a strictly greater value). -/
def pyMaxBy (f : α → Nat) : List α → Option α
  | [] => none
  | x :: xs => some (xs.foldl (fun best y => if f best < f y then y else best) x)

/-- Model of Python `min(l)` for nonempty lists of numbers. -/
def pyMinList : List Nat → Nat
  | [] => 0
  | x :: xs => xs.foldl Nat.min x

/-- Model of Python `max(l)` for nonempty lists of numbers. -/
def pyMaxList : List Nat → Nat
  | [] => 0
  | x :: xs => xs.foldl Nat.max x

/-- Model of `deque(maxlen := maxlen)` append: evict from the front when
the capacity is exceeded. -/
def dequeAppend (maxlen : Nat) (l : List α) (x : α) : List α :=
  let l' := l ++ [x]
  if maxlen < l'.length then l'.drop (l'.length - maxlen) else l'

/-- Python dict assignment `d[k] = v`: update in place when the key is
present, append otherwise (dicts preserve insertion order). -/
def dictSet (d : List (String × α)) (k : String) (v : α) : List (String × α) :=
  if d.any (fun kv => kv.1 == k) then
    d.map (fun kv => if kv.1 == k then (kv.1, v) else kv)
  else d ++ [(k, v)]

/-- Python dict in-place field mutation `d[k]['field'] = x`. -/
def dictUpdate (d : List (String × α)) (k : String) (f : α → α) : List (String × α) :=
  d.map (fun kv => if kv.1 == k then (kv.1, f kv.2) else kv)

/-- Python `del d[k]`: remove the entry with key `k` (dict keys are
unique, so removing the first occurrence is exact). -/
def dictDel (d : List (String × α)) (k : String) : List (String × α) :=
  d.eraseP (fun kv => kv.1 == k)

/-- Floor of a rational number, computed on the numerator/denominator
representation. -/
def ratFloor (q : ℚ) : ℤ :=
  Int.fdiv q.num (q.den : ℤ)

/-- Round-half-to-even to an integer, the model of Python `round` (the
sub-ulp float noise of CPython at exact `.5` ties is not modelled). -/
def rhe (q : ℚ) : ℤ :=
  let f := ratFloor q
  if q - (f : ℚ) < 1 / 2 then f
  else if (1 : ℚ) / 2 < q - (f : ℚ) then f + 1
  else if f % 2 = 0 then f else f + 1

/-- Model of Python `round(x, 1)`. -/
def round1 (q : ℚ) : ℚ :=
  (rhe (q * 10) : ℚ) / 10

/-! ## Data model (monitor.py lines 85-109 and 253-267) -/

/-- Configuration constant `RESPONSE_TIMES_MAXLEN` (line 87). -/
def RESPONSE_TIMES_MAXLEN : Nat := 10000

/-- Configuration constant `RECENT_ISSUES_MAXLEN` (line 90). -/
def RECENT_ISSUES_MAXLEN : Nat := 20

/-- Configuration constant `SLOWEST_REQUESTS_COUNT` (line 93). -/
def SLOWEST_REQUESTS_COUNT : Nat := 5

/-- Configuration constant `SLOWEST_REQUESTS_WINDOW` (line 96), scaled to
milliseconds. -/
def SLOWEST_REQUESTS_WINDOW_MS : Nat := 600 * 1000

/-- Configuration constant `REQUEST_TRACKING_TIMEOUT` (line 109), scaled
to milliseconds. -/
def REQUEST_TRACKING_TIMEOUT_MS : Nat := 300 * 1000

/-- One entry of `recent_issues[log_name]` (lines 325-329): wall-clock
stamp (modelled in milliseconds), severity level and the
stripped-and-truncated message. -/
structure Issue where
  timestamp : Nat
  level : String
  message : String
deriving Repr, DecidableEq

/-- One entry of `current_requests[log_name]` (lines 354-361): the
pending request being accumulated under a tracking key. -/
structure ReqDetails where
  map : Option String
  user : Option String
  layers : Option String
  request_type : Option String
  start_time : Nat
  raw_request_id : String
deriving Repr, DecidableEq

/-- The fresh entry created on new-request detection (lines 354-361 and
372-379). -/
def freshDetails (now : Nat) (rid : String) : ReqDetails :=
  { map := none, user := none, layers := none, request_type := none,
    start_time := now, raw_request_id := rid }

/-- The metadata snapshot stored in a slowest-list entry (lines 505-510).
The `details` dict always carries all four keys, so `details.get(k, 'N/A')`
returns the stored value (possibly `None`), modelled as the option itself. -/
structure SlowMeta where
  map : Option String
  user : Option String
  layers : Option String
  request_type : Option String
deriving Repr, DecidableEq

/-- One entry of `slowest_requests[log_name]` (lines 501-511):
`(response_time, timestamp, request_id, metadata)`. -/
structure SlowEntry where
  response_time : Nat
  timestamp : Nat
  request_id : String
  meta : SlowMeta
deriving Repr, DecidableEq

/-- One row submitted to `save_request_to_db` (lines 444-453).  As for
`SlowMeta`, the `details.get(k, 'Unknown')` calls return the stored
option values. -/
structure DbRow where
  project : Option String
  user : Option String
  layers : Option String
  request_type : Option String
  response_time : Nat
  request_id : String
deriving Repr, DecidableEq

/-- The per-pool mutable state (lines 253-267): response-time ring
buffer, pending-request tracking dict, slowest list, counters and the
recent-issue ring buffer. -/
structure PoolState where
  response_times : List (Nat × Nat)
  current_requests : List (String × ReqDetails)
  slowest_requests : List SlowEntry
  requests_total : Nat
  errors : Nat
  warnings : Nat
  recent_issues : List Issue
deriving Repr, DecidableEq

/-- The initial per-pool state (lines 253-267). -/
def initialPoolState : PoolState :=
  { response_times := [], current_requests := [], slowest_requests := [],
    requests_total := 0, errors := 0, warnings := 0, recent_issues := [] }

/-- One raw log line together with the results of the five regular
expression searches `parse_qgis_log_line` performs on it:

* `requestId` models `re.search(r'\[(\d+)\]', line)` (line 315); the
  captured group is a nonempty digit string when present;
* `mapMatch` models `re.search(r'MAP:([^\s]+)', line)` (line 384);
* `userMatch` models `re.search(r'LIZMAP_USER:([^\s]+)', line)` (line 393);
* `layersMatch` models `re.search(r'LAYERS:(.+?)(?:\s|$)', line)` (line 399);
* `requestMatch` models `re.search(r'REQUEST:([^\s]+)', line)` (line 406);
* `timeMatch` models `re.search(r'(\d+)\s*ms', line)` (line 413), the
  captured digits as a number.

All substring tests (`'WARNING' in line`, `'MAP:' in line`,
`'Request finished' in line`, ...) are computed from `raw`. -/
structure Line where
  raw : String
  requestId : Option String
  mapMatch : Option String
  userMatch : Option String
  layersMatch : Option String
  requestMatch : Option String
  timeMatch : Option Nat
deriving Repr, DecidableEq

/-- Result of one `parse_qgis_log_line` call: the new pool state, the
function's boolean return value, the rows submitted to
`save_request_to_db` during the call, and — as a ghost observation — the
tracking key and `details` dict read at the close site (line 431), i.e.
the completed request's metadata. -/
structure ParseResult where
  state : PoolState
  finished : Bool
  dbRows : List DbRow
  closed : Option (String × ReqDetails)
deriving Repr, DecidableEq

/-! ## Embedded operations -/

/-- Error/warning detection of `parse_qgis_log_line` (lines 322-336):
`WARNING`/`WARN` takes the first branch, otherwise `ERROR`/`CRITICAL`
takes the second. -/
def detectIssuesQgis (line : Line) (now : Nat) (st : PoolState) : PoolState :=
  if pyIn "WARNING" line.raw || pyIn "WARN" line.raw then
    { st with
      warnings := st.warnings + 1
      recent_issues := dequeAppend RECENT_ISSUES_MAXLEN st.recent_issues
        { timestamp := now, level := "WARNING", message := pyTruncStrip line.raw } }
  else if pyIn "ERROR" line.raw || pyIn "CRITICAL" line.raw then
    { st with
      errors := st.errors + 1
      recent_issues := dequeAppend RECENT_ISSUES_MAXLEN st.recent_issues
        { timestamp := now, level := "ERROR", message := pyTruncStrip line.raw } }
  else st

/-- Find-or-create stage of the tracking block (lines 342-380), acting on
`current_requests[log_name]` only.  Returns the `tracking_key` variable
and the (possibly extended) dict. -/
def trackFind (rid : String) (line : Line) (now : Nat)
    (cur : List (String × ReqDetails)) : String × List (String × ReqDetails) :=
  -- lines 342-347: new-request detection
  let is_new := pyIn "QGIS Request accepted" line.raw
    || (pyIn "MAP:" line.raw && !(cur.any (fun kv => pyIn rid kv.1)))
  -- lines 349-380: find or create the tracking key
  if is_new then
    (mkKey rid now, dictSet cur (mkKey rid now) (freshDetails now rid))
  else
    match pyMaxBy keyMs ((cur.map Prod.fst).filter (fun k => pyStartsWith k (rid ++ "_"))) with
    | some k => (k, cur)
    | none => (mkKey rid now, dictSet cur (mkKey rid now) (freshDetails now rid))

/-- Field-accumulation stage of the tracking block (lines 382-409),
applied to the tracking key and dict returned by `trackFind`. -/
def trackFields (line : Line) (kc : String × List (String × ReqDetails)) :
    String × List (String × ReqDetails) :=
  let tracking_key := kc.1
  let cur := kc.2
  if pyIn "MAP:" line.raw then
    match line.mapMatch with
    | some mp =>
      (tracking_key, dictUpdate cur tracking_key
        (fun d => { d with map := some (projectNameOfPath mp) }))
    | none => (tracking_key, cur)
  else if pyIn "LIZMAP_USER:" line.raw then
    match line.userMatch with
    | some u => (tracking_key, dictUpdate cur tracking_key (fun d => { d with user := some u }))
    | none => (tracking_key, cur)
  else if pyIn "LAYERS:" line.raw then
    match line.layersMatch with
    | some ls =>
      (tracking_key, dictUpdate cur tracking_key (fun d => { d with layers := some (pyStripStr ls) }))
    | none => (tracking_key, cur)
  else if pyIn "REQUEST:" line.raw then
    match line.requestMatch with
    | some r =>
      (tracking_key, dictUpdate cur tracking_key (fun d => { d with request_type := some (pyUpper r) }))
    | none => (tracking_key, cur)
  else (tracking_key, cur)

/-- Request-tracking block of `parse_qgis_log_line` (lines 339-409): find
or create the tracking key, then accumulate the fields the line carries. -/
def trackRequest (rid : String) (line : Line) (now : Nat)
    (cur : List (String × ReqDetails)) : String × List (String × ReqDetails) :=
  trackFields line (trackFind rid line now cur)

/-- Abandoned-request sweep (lines 468-475): drop every pending entry
whose `start_time` is older than the timeout. -/
def sweepOld (now : Nat) (cur : List (String × ReqDetails)) : List (String × ReqDetails) :=
  cur.filter (fun kv => !(decide (kv.2.start_time < now - REQUEST_TRACKING_TIMEOUT_MS)))

/-- Slowest-list maintenance `add_to_slowest` (lines 479-517): only
`GETMAP` requests are ranked; entries older than the window are evicted,
the new entry appended, the list sorted descending by response time
(stable, like Python `list.sort`), and truncated to the top
`SLOWEST_REQUESTS_COUNT`. -/
def add_to_slowest (response_time timestamp : Nat) (request_id : String)
    (details : ReqDetails) (slowest : List SlowEntry) : List SlowEntry :=
  match details.request_type with
  | none => slowest
  | some s =>
    if s == "" then slowest
    else if pyUpper s != "GETMAP" then slowest
    else
      let cutoff := timestamp - SLOWEST_REQUESTS_WINDOW_MS
      let kept := slowest.filter (fun r => decide (cutoff ≤ r.timestamp))
      let entry : SlowEntry :=
        { response_time := response_time, timestamp := timestamp, request_id := request_id,
          meta := { map := details.map, user := details.user, layers := details.layers,
                    request_type := details.request_type } }
      (List.insertionSort (fun a b => b.response_time ≤ a.response_time) (kept ++ [entry])).take
        SLOWEST_REQUESTS_COUNT

/-- Completion handling of `parse_qgis_log_line` (lines 418-466), entered
with a request id, a parsed elapsed time and `response_time > 0`: record
the sample, bump the total counter, close the most recent matching
tracking key (GETMAP requests are additionally persisted), and return
`True`. -/
def closeRequest (rid : String) (rt : Nat) (now : Nat) (st : PoolState) : ParseResult :=
  let st1 :=
    { st with
      response_times := dequeAppend RESPONSE_TIMES_MAXLEN st.response_times (now, rt)
      requests_total := st.requests_total + 1 }
  match pyMaxBy (fun kv => keyMs kv.1)
      (st1.current_requests.filter (fun kv => pyStartsWith kv.1 (rid ++ "_"))) with
  | some kv =>
    let details := kv.2
    -- lines 436-455: persist only GETMAP requests
    let rows : List DbRow :=
      match details.request_type with
      | none => []
      | some s =>
        if s == "" then []
        else if pyUpper s == "GETMAP" then
          [{ project := details.map, user := details.user, layers := details.layers,
             request_type := details.request_type, response_time := rt, request_id := rid }]
        else []
    { state :=
        { st1 with
          slowest_requests := add_to_slowest rt now rid details st1.slowest_requests,
          current_requests := dictDel st1.current_requests kv.1 },
      finished := true, dbRows := rows, closed := some kv }
  | none => { state := st1, finished := true, dbRows := [], closed := none }

/-- Shared fall-through of `parse_qgis_log_line` (lines 468-477): sweep
abandoned entries and return `False`. -/
def noFinish (now : Nat) (st : PoolState) : ParseResult :=
  { state := { st with current_requests := sweepOld now st.current_requests },
    finished := false, dbRows := [], closed := none }

/-- State after the issue-detection and request-tracking stages of
`parse_qgis_log_line` (lines 322-409): the tracking block runs exactly
when the line carries a request id. -/
def stTracked (line : Line) (now : Nat) (st : PoolState) : PoolState :=
  let st1 := detectIssuesQgis line now st
  match line.requestId with
  | some rid => { st1 with current_requests := (trackRequest rid line now st1.current_requests).2 }
  | none => st1

/-- The full `parse_qgis_log_line` (lines 310-477) for one pool. -/
def parse_qgis_log_line (line : Line) (now : Nat) (st : PoolState) : ParseResult :=
  let st2 := stTracked line now st
  match line.requestId with
  | some rid =>
    if pyIn "Request finished" line.raw || pyIn "request finished" line.raw then
      match line.timeMatch with
      | some rt => if 0 < rt then closeRequest rid rt now st2 else noFinish now st2
      | none => noFinish now st2
    else noFinish now st2
  | none => noFinish now st2

/-- The PHP-FPM line parser `parse_php_log_line` (lines 519-535): issue
detection only, with `Fatal` as an additional error keyword. -/
def parse_php_log_line (line : Line) (now : Nat) (st : PoolState) : PoolState :=
  if pyIn "WARNING" line.raw || pyIn "WARN" line.raw then
    { st with
      warnings := st.warnings + 1
      recent_issues := dequeAppend RECENT_ISSUES_MAXLEN st.recent_issues
        { timestamp := now, level := "WARNING", message := pyTruncStrip line.raw } }
  else if pyIn "ERROR" line.raw || pyIn "CRITICAL" line.raw || pyIn "Fatal" line.raw then
    { st with
      errors := st.errors + 1
      recent_issues := dequeAppend RECENT_ISSUES_MAXLEN st.recent_issues
        { timestamp := now, level := "ERROR", message := pyTruncStrip line.raw } }
  else st

/-- Result record of `calculate_response_stats` (lines 548-565). -/
structure RespStats where
  avg : ℚ
  min : Nat
  max : Nat
  count : Nat
  p95 : Nat
deriving Repr, DecidableEq

/-- Windowed statistics `calculate_response_stats` (lines 537-565): filter
the samples to the window, return zeros when empty, otherwise count,
min, max, mean rounded to one decimal and the nearest-rank 95th
percentile `times_sorted[int(count * 0.95)]`.  `int(count * 0.95)` is
modelled by `count * 95 / 100`: for every count the float product
`count * 0.95` truncates to the same integer (the fractional part of the
exact product is a multiple of 1/20, far larger than the float error). -/
def calculate_response_stats (samples : List (Nat × Nat)) (now seconds_ago : Nat) : RespStats :=
  let cutoff := now - seconds_ago
  let times_in_window := (samples.filter (fun p => decide (cutoff ≤ p.1))).map Prod.snd
  if times_in_window.isEmpty then
    { avg := 0, min := 0, max := 0, count := 0, p95 := 0 }
  else
    let times_sorted := List.insertionSort (· ≤ ·) times_in_window
    let count := times_sorted.length
    { avg := round1 ((times_sorted.sum : ℚ) / (count : ℚ)),
      min := pyMinList times_sorted,
      max := pyMaxList times_sorted,
      count := count,
      p95 := if 0 < count then times_sorted.getD (count * 95 / 100) 0 else 0 }

/-! ## Basic lemmas about the string and list helpers -/

theorem digitsAux_eq (n : Nat) : ∀ fuel acc, n < fuel →
    digitsAux fuel n acc = natToDigits n ++ acc := by
  induction n using Nat.strong_induction_on with
  | _ n ih =>
    intro fuel acc hf
    cases fuel with
    | zero => omega
    | succ f =>
      by_cases h10 : n < 10
      · simp [digitsAux, natToDigits, h10]
      · have hd : n / 10 < n := Nat.div_lt_self (by omega) (by omega)
        have hfu : n / 10 < f := by
          have := Nat.div_le_self n 10
          omega
        simp only [digitsAux, if_neg h10, natToDigits]
        rw [ih (n / 10) hd f (Nat.digitChar (n % 10) :: acc) hfu,
          ih (n / 10) hd n (Nat.digitChar (n % 10) :: []) hd]
        simp

theorem natToDigits_eq (n : Nat) :
    natToDigits n =
      if n < 10 then [Nat.digitChar n]
      else natToDigits (n / 10) ++ [Nat.digitChar (n % 10)] := by
  by_cases h10 : n < 10
  · simp [natToDigits, digitsAux, h10]
  · have hd : n / 10 < n := Nat.div_lt_self (by omega) (by omega)
    rw [if_neg h10]
    rw [show natToDigits n = digitsAux n (n / 10) [Nat.digitChar (n % 10)] from by
      simp [natToDigits, digitsAux, h10]]
    exact digitsAux_eq (n / 10) n [Nat.digitChar (n % 10)] hd

theorem digitChar_isDigit {n : Nat} (h : n < 10) : (Nat.digitChar n).isDigit = true := by
  interval_cases n <;> decide

theorem digitChar_val {n : Nat} (h : n < 10) : (Nat.digitChar n).toNat - 48 = n := by
  interval_cases n <;> decide

theorem natToDigits_digits (n : Nat) : ∀ c ∈ natToDigits n, c.isDigit = true := by
  induction n using Nat.strong_induction_on with
  | _ n ih =>
    intro c hc
    rw [natToDigits_eq] at hc
    by_cases h10 : n < 10
    · rw [if_pos h10] at hc
      simp at hc
      subst hc
      exact digitChar_isDigit h10
    · rw [if_neg h10] at hc
      rcases List.mem_append.1 hc with h1 | h1
      · exact ih (n / 10) (Nat.div_lt_self (by omega) (by omega)) c h1
      · simp at h1
        subst h1
        exact digitChar_isDigit (Nat.mod_lt _ (by omega))

theorem strToNat_aux (n : Nat) :
    ∀ a, List.foldl (fun a c => a * 10 + (c.toNat - 48)) a (natToDigits n) =
      a * 10 ^ (natToDigits n).length + n := by
  induction n using Nat.strong_induction_on with
  | _ n ih =>
    intro a
    rw [natToDigits_eq]
    by_cases h10 : n < 10
    · simp [if_pos h10, digitChar_val h10]
    · have hd : n / 10 < n := Nat.div_lt_self (by omega) (by omega)
      rw [if_neg h10, List.foldl_append, ih (n / 10) hd a]
      simp only [List.foldl_cons, List.foldl_nil, List.length_append, List.length_singleton]
      rw [digitChar_val (Nat.mod_lt _ (by omega)), pow_succ, ← Nat.mul_assoc]
      generalize a * 10 ^ (natToDigits (n / 10)).length = C
      omega

theorem strToNat_natToDigits (n : Nat) : strToNat (natToDigits n) = n := by
  have h := strToNat_aux n 0
  simpa [strToNat] using h

theorem digit_bne_underscore {c : Char} (h : c.isDigit = true) : (c != '_') = true := by
  simp only [bne_iff_ne, ne_eq]
  intro he
  subst he
  exact absurd h (by decide)

theorem mkKey_data (rid : String) (t : Nat) :
    (mkKey rid t).data = rid.data ++ '_' :: natToDigits t := by
  simp [mkKey, String.data_append, List.asString]

theorem takeWhile_all {p : α → Bool} {l : List α} (h : ∀ a ∈ l, p a = true) :
    l.takeWhile p = l := by
  induction l with
  | nil => rfl
  | cons a l ihl =>
    rw [List.takeWhile_cons_of_pos (h a (by simp))]
    rw [ihl fun b hb => h b (by simp [hb])]

theorem keyMs_mkKey (rid : String) (t : Nat) (h : ∀ c ∈ rid.data, c.isDigit = true) :
    keyMs (mkKey rid t) = t := by
  unfold keyMs
  rw [mkKey_data]
  rw [List.dropWhile_append_of_pos fun c hc => digit_bne_underscore (h c hc)]
  rw [List.dropWhile_cons_of_neg (by simp)]
  simp only [List.drop_succ_cons, List.drop_zero]
  rw [takeWhile_all fun c hc => digit_bne_underscore (natToDigits_digits t c hc)]
  exact strToNat_natToDigits t

theorem mkKey_ne {rid : String} {t1 t2 : Nat} (h : ∀ c ∈ rid.data, c.isDigit = true)
    (hne : t1 ≠ t2) : mkKey rid t1 ≠ mkKey rid t2 := by
  intro he
  exact hne (by rw [← keyMs_mkKey rid t1 h, ← keyMs_mkKey rid t2 h, he])

theorem listContainsB_of_isPrefixOf {n h : List Char} (hp : n.isPrefixOf h = true) :
    listContainsB n h = true := by
  cases h <;> simp [listContainsB, hp]

theorem pyStartsWith_mkKey (rid : String) (t : Nat) :
    pyStartsWith (mkKey rid t) (rid ++ "_") = true := by
  unfold pyStartsWith
  rw [String.data_append, mkKey_data, List.isPrefixOf_iff_prefix]
  have hassoc : rid.data ++ '_' :: natToDigits t = (rid.data ++ ['_']) ++ natToDigits t := by
    simp
  rw [hassoc]
  exact List.prefix_append _ _

theorem pyIn_of_startsKey {k rid : String} (hs : pyStartsWith k (rid ++ "_") = true) :
    pyIn rid k = true := by
  unfold pyStartsWith at hs
  rw [List.isPrefixOf_iff_prefix] at hs
  rw [String.data_append] at hs
  have h1 : rid.data <+: k.data :=
    (List.prefix_append rid.data "_".data).trans hs
  exact listContainsB_of_isPrefixOf (List.isPrefixOf_iff_prefix.2 h1)

theorem startsKey_eq_false {k rid : String} (hin : pyIn rid k = false) :
    pyStartsWith k (rid ++ "_") = false := by
  cases hs : pyStartsWith k (rid ++ "_") with
  | false => rfl
  | true => rw [pyIn_of_startsKey hs] at hin; exact absurd hin (by simp)

theorem pyIn_rid_mkKey (rid : String) (t : Nat) : pyIn rid (mkKey rid t) = true := by
  apply listContainsB_of_isPrefixOf
  rw [List.isPrefixOf_iff_prefix, mkKey_data]
  exact ⟨'_' :: natToDigits t, rfl⟩

/-! ## Lemmas about `pyMaxBy`, `pyMinList`, `pyMaxList` -/

theorem foldl_pyMax_spec (f : α → Nat) :
    ∀ (xs : List α) (b : α),
      (xs.foldl (fun best y => if f best < f y then y else best) b = b ∨
        xs.foldl (fun best y => if f best < f y then y else best) b ∈ xs) ∧
      f b ≤ f (xs.foldl (fun best y => if f best < f y then y else best) b) ∧
      ∀ y ∈ xs, f y ≤ f (xs.foldl (fun best y => if f best < f y then y else best) b) := by
  intro xs
  induction xs with
  | nil => intro b; simp
  | cons x xs ih =>
    intro b
    simp only [List.foldl_cons]
    obtain ⟨ihmem, ihle, ihall⟩ := ih (if f b < f x then x else b)
    have hb : f b ≤ f (if f b < f x then x else b) := by
      split <;> omega
    have hx : f x ≤ f (if f b < f x then x else b) := by
      split <;> omega
    refine ⟨?_, le_trans hb ihle, ?_⟩
    · rcases ihmem with h | h
      · rw [h]
        split
        · exact Or.inr (by simp)
        · exact Or.inl rfl
      · exact Or.inr (by simp [h])
    · intro y hy
      rcases List.mem_cons.1 hy with rfl | hy
      · exact le_trans hx ihle
      · exact ihall y hy

theorem pyMaxBy_mem {f : α → Nat} {l : List α} {x : α} (h : pyMaxBy f l = some x) :
    x ∈ l := by
  cases l with
  | nil => simp [pyMaxBy] at h
  | cons a l =>
    simp only [pyMaxBy, Option.some.injEq] at h
    obtain ⟨hmem, _, _⟩ := foldl_pyMax_spec f l a
    rcases hmem with hm | hm
    · rw [← h, hm]; simp
    · rw [← h]; simp [hm]

theorem pyMaxBy_le {f : α → Nat} {l : List α} {x : α} (h : pyMaxBy f l = some x) :
    ∀ y ∈ l, f y ≤ f x := by
  cases l with
  | nil => simp [pyMaxBy] at h
  | cons a l =>
    simp only [pyMaxBy, Option.some.injEq] at h
    obtain ⟨_, hle, hall⟩ := foldl_pyMax_spec f l a
    intro y hy
    rcases List.mem_cons.1 hy with rfl | hy
    · rw [← h]; exact hle
    · rw [← h]; exact hall y hy

theorem pyMaxBy_isSome {f : α → Nat} {l : List α} (h : l ≠ []) :
    ∃ x, pyMaxBy f l = some x := by
  cases l with
  | nil => exact absurd rfl h
  | cons a l => exact ⟨_, rfl⟩

theorem foldl_min_spec :
    ∀ (xs : List Nat) (b : Nat),
      (xs.foldl Nat.min b = b ∨ xs.foldl Nat.min b ∈ xs) ∧
      xs.foldl Nat.min b ≤ b ∧ ∀ x ∈ xs, xs.foldl Nat.min b ≤ x := by
  intro xs
  induction xs with
  | nil => intro b; simp
  | cons x xs ih =>
    intro b
    simp only [List.foldl_cons]
    obtain ⟨ihmem, ihle, ihall⟩ := ih (Nat.min b x)
    have hmin : Nat.min b x = b ∨ Nat.min b x = x := by
      by_cases hbx : b ≤ x
      · exact Or.inl (Nat.min_eq_left hbx)
      · exact Or.inr (Nat.min_eq_right (by omega))
    refine ⟨?_, le_trans ihle (Nat.min_le_left _ _), ?_⟩
    · rcases ihmem with h | h
      · rcases hmin with hm | hm
        · exact Or.inl (h.trans hm)
        · exact Or.inr (by rw [h, hm]; exact List.mem_cons_self _ _)
      · exact Or.inr (List.mem_cons_of_mem _ h)
    · intro y hy
      rcases List.mem_cons.1 hy with rfl | hy
      · exact le_trans ihle (Nat.min_le_right _ _)
      · exact ihall y hy

theorem foldl_max_spec :
    ∀ (xs : List Nat) (b : Nat),
      (xs.foldl Nat.max b = b ∨ xs.foldl Nat.max b ∈ xs) ∧
      b ≤ xs.foldl Nat.max b ∧ ∀ x ∈ xs, x ≤ xs.foldl Nat.max b := by
  intro xs
  induction xs with
  | nil => intro b; simp
  | cons x xs ih =>
    intro b
    simp only [List.foldl_cons]
    obtain ⟨ihmem, ihle, ihall⟩ := ih (Nat.max b x)
    have hmax : Nat.max b x = b ∨ Nat.max b x = x := by
      by_cases hbx : x ≤ b
      · exact Or.inl (Nat.max_eq_left hbx)
      · exact Or.inr (Nat.max_eq_right (by omega))
    refine ⟨?_, le_trans (Nat.le_max_left _ _) ihle, ?_⟩
    · rcases ihmem with h | h
      · rcases hmax with hm | hm
        · exact Or.inl (h.trans hm)
        · exact Or.inr (by rw [h, hm]; exact List.mem_cons_self _ _)
      · exact Or.inr (List.mem_cons_of_mem _ h)
    · intro y hy
      rcases List.mem_cons.1 hy with rfl | hy
      · exact le_trans (Nat.le_max_right _ _) ihle
      · exact ihall y hy

theorem pyMinList_spec {l : List Nat} (h : l ≠ []) :
    pyMinList l ∈ l ∧ ∀ x ∈ l, pyMinList l ≤ x := by
  cases l with
  | nil => exact absurd rfl h
  | cons a l =>
    simp only [pyMinList]
    obtain ⟨hmem, hle, hall⟩ := foldl_min_spec l a
    constructor
    · rcases hmem with hm | hm
      · rw [hm]; simp
      · simp [hm]
    · intro x hx
      rcases List.mem_cons.1 hx with rfl | hx
      · exact hle
      · exact hall x hx

theorem pyMaxList_spec {l : List Nat} (h : l ≠ []) :
    pyMaxList l ∈ l ∧ ∀ x ∈ l, x ≤ pyMaxList l := by
  cases l with
  | nil => exact absurd rfl h
  | cons a l =>
    simp only [pyMaxList]
    obtain ⟨hmem, hle, hall⟩ := foldl_max_spec l a
    constructor
    · rcases hmem with hm | hm
      · rw [hm]; simp
      · simp [hm]
    · intro x hx
      rcases List.mem_cons.1 hx with rfl | hx
      · exact hle
      · exact hall x hx

/-! ## Lemmas about the dict model and the state-machine blocks -/

theorem dictUpdate_any_fst (d : List (String × α)) (k : String) (f : α → α)
    (p : String → Bool) :
    (dictUpdate d k f).any (fun kv => p kv.1) = d.any (fun kv => p kv.1) := by
  unfold dictUpdate
  rw [List.any_map]
  congr 1
  funext kv
  cases h : kv.1 == k <;> simp [Function.comp, h]

theorem dictSet_any_key (d : List (String × α)) (k : String) (v : α)
    (p : String → Bool) (hp : p k = true) :
    (dictSet d k v).any (fun kv => p kv.1) = true := by
  unfold dictSet
  split
  · next h =>
    rw [List.any_eq_true] at h ⊢
    obtain ⟨kv, hkv, hbeq⟩ := h
    refine ⟨(kv.1, v), List.mem_map.2 ⟨kv, hkv, by simp [hbeq]⟩, ?_⟩
    have : kv.1 = k := by simpa using hbeq
    simpa [this] using hp
  · rw [List.any_eq_true]
    exact ⟨(k, v), by simp, hp⟩

theorem dictDel_length {d : List (String × α)} {kv : String × α} (hmem : kv ∈ d) :
    (dictDel d kv.1).length + 1 = d.length := by
  unfold dictDel
  rw [List.length_eraseP_of_mem hmem (by simp)]
  have : 0 < d.length := List.length_pos.2 (by rintro rfl; simp at hmem)
  omega

theorem detectIssuesQgis_cur (line : Line) (now : Nat) (st : PoolState) :
    (detectIssuesQgis line now st).current_requests = st.current_requests := by
  unfold detectIssuesQgis
  split
  · rfl
  · split <;> rfl

theorem detectIssuesQgis_resp (line : Line) (now : Nat) (st : PoolState) :
    (detectIssuesQgis line now st).response_times = st.response_times := by
  unfold detectIssuesQgis
  split
  · rfl
  · split <;> rfl

theorem detectIssuesQgis_total (line : Line) (now : Nat) (st : PoolState) :
    (detectIssuesQgis line now st).requests_total = st.requests_total := by
  unfold detectIssuesQgis
  split
  · rfl
  · split <;> rfl

theorem detectIssuesQgis_slowest (line : Line) (now : Nat) (st : PoolState) :
    (detectIssuesQgis line now st).slowest_requests = st.slowest_requests := by
  unfold detectIssuesQgis
  split
  · rfl
  · split <;> rfl

theorem closeRequest_finished (rid : String) (rt now : Nat) (st : PoolState) :
    (closeRequest rid rt now st).finished = true := by
  unfold closeRequest
  dsimp only
  split <;> rfl

theorem closeRequest_spec (rid : String) (rt now : Nat) (st : PoolState) (kv : String × ReqDetails)
    (h : pyMaxBy (fun kv => keyMs kv.1)
        (st.current_requests.filter (fun kv => pyStartsWith kv.1 (rid ++ "_"))) = some kv) :
    closeRequest rid rt now st =
      { state :=
          { st with
            response_times := dequeAppend RESPONSE_TIMES_MAXLEN st.response_times (now, rt)
            requests_total := st.requests_total + 1
            slowest_requests := add_to_slowest rt now rid kv.2 st.slowest_requests
            current_requests := dictDel st.current_requests kv.1 },
        finished := true,
        dbRows :=
          match kv.2.request_type with
          | none => []
          | some s =>
            if s == "" then []
            else if pyUpper s == "GETMAP" then
              [{ project := kv.2.map, user := kv.2.user, layers := kv.2.layers,
                 request_type := kv.2.request_type, response_time := rt, request_id := rid }]
            else [],
        closed := some kv } := by
  unfold closeRequest
  dsimp only
  rw [h]

theorem trackFind_plain (rid : String) (line : Line) (now : Nat)
    (cur : List (String × ReqDetails))
    (hacc : pyIn "QGIS Request accepted" line.raw = false)
    (hmap : pyIn "MAP:" line.raw = false)
    (k : String)
    (hk : pyMaxBy keyMs ((cur.map Prod.fst).filter (fun x => pyStartsWith x (rid ++ "_"))) = some k) :
    trackFind rid line now cur = (k, cur) := by
  unfold trackFind
  rw [hacc, hmap]
  simp only [Bool.false_and, Bool.or_false, Bool.false_eq_true, not_false_eq_true, if_neg,
    ite_false]
  rw [hk]

theorem trackFields_nofields (line : Line) (kc : String × List (String × ReqDetails))
    (hmap : pyIn "MAP:" line.raw = false)
    (huser : pyIn "LIZMAP_USER:" line.raw = false)
    (hlay : pyIn "LAYERS:" line.raw = false)
    (hreq : pyIn "REQUEST:" line.raw = false) :
    trackFields line kc = kc := by
  unfold trackFields
  rw [hmap, huser, hlay, hreq]
  simp

theorem trackRequest_plain (rid : String) (line : Line) (now : Nat)
    (cur : List (String × ReqDetails))
    (hacc : pyIn "QGIS Request accepted" line.raw = false)
    (hmap : pyIn "MAP:" line.raw = false)
    (huser : pyIn "LIZMAP_USER:" line.raw = false)
    (hlay : pyIn "LAYERS:" line.raw = false)
    (hreq : pyIn "REQUEST:" line.raw = false)
    (k : String)
    (hk : pyMaxBy keyMs ((cur.map Prod.fst).filter (fun x => pyStartsWith x (rid ++ "_"))) = some k) :
    trackRequest rid line now cur = (k, cur) := by
  unfold trackRequest
  rw [trackFind_plain rid line now cur hacc hmap k hk,
    trackFields_nofields line (k, cur) hmap huser hlay hreq]

theorem stTracked_plain (line : Line) (rid : String) (now : Nat) (st : PoolState) (k : String)
    (hrid : line.requestId = some rid)
    (hacc : pyIn "QGIS Request accepted" line.raw = false)
    (hmap : pyIn "MAP:" line.raw = false)
    (huser : pyIn "LIZMAP_USER:" line.raw = false)
    (hlay : pyIn "LAYERS:" line.raw = false)
    (hreq : pyIn "REQUEST:" line.raw = false)
    (hk : pyMaxBy keyMs ((st.current_requests.map Prod.fst).filter
        (fun x => pyStartsWith x (rid ++ "_"))) = some k) :
    stTracked line now st = detectIssuesQgis line now st := by
  unfold stTracked
  rw [hrid]
  dsimp only
  rw [detectIssuesQgis_cur,
    trackRequest_plain rid line now st.current_requests hacc hmap huser hlay hreq k hk]
  conv_lhs => rw [← detectIssuesQgis_cur line now st]

theorem parse_finished_eq (line : Line) (rid : String) (rt now : Nat) (st : PoolState)
    (hrid : line.requestId = some rid)
    (hfin : (pyIn "Request finished" line.raw || pyIn "request finished" line.raw) = true)
    (ht : line.timeMatch = some rt) (hrt : 0 < rt) :
    parse_qgis_log_line line now st = closeRequest rid rt now (stTracked line now st) := by
  unfold parse_qgis_log_line
  rw [hrid]
  dsimp only
  rw [hfin, ht]
  dsimp only
  rw [if_pos hrt]
  simp

theorem parse_shape (line : Line) (now : Nat) (st : PoolState) :
    parse_qgis_log_line line now st = noFinish now (stTracked line now st) ∨
    ∃ rid rt, line.requestId = some rid ∧ line.timeMatch = some rt ∧ 0 < rt ∧
      parse_qgis_log_line line now st = closeRequest rid rt now (stTracked line now st) := by
  cases hrid : line.requestId with
  | none =>
    left
    unfold parse_qgis_log_line
    rw [hrid]
  | some rid =>
    cases hfin : (pyIn "Request finished" line.raw || pyIn "request finished" line.raw) with
    | false =>
      left
      unfold parse_qgis_log_line
      rw [hrid]
      dsimp only
      rw [hfin]
      rfl
    | true =>
      cases ht : line.timeMatch with
      | none =>
        left
        unfold parse_qgis_log_line
        rw [hrid]
        dsimp only
        rw [hfin, ht]
        simp
      | some rt =>
        by_cases hrt : 0 < rt
        · right
          exact ⟨rid, rt, rfl, rfl, hrt, parse_finished_eq line rid rt now st hrid hfin ht hrt⟩
        · left
          unfold parse_qgis_log_line
          rw [hrid]
          dsimp only
          rw [hfin, ht]
          dsimp only
          rw [if_neg hrt]
          simp

/-! ## Issue-field preservation through the parse pipeline -/

theorem stTracked_issue_fields (line : Line) (now : Nat) (st : PoolState) :
    (stTracked line now st).warnings = (detectIssuesQgis line now st).warnings ∧
    (stTracked line now st).errors = (detectIssuesQgis line now st).errors ∧
    (stTracked line now st).recent_issues = (detectIssuesQgis line now st).recent_issues := by
  unfold stTracked
  cases hr : line.requestId <;> exact ⟨rfl, rfl, rfl⟩

theorem noFinish_issue_fields (now : Nat) (st : PoolState) :
    (noFinish now st).state.warnings = st.warnings ∧
    (noFinish now st).state.errors = st.errors ∧
    (noFinish now st).state.recent_issues = st.recent_issues :=
  ⟨rfl, rfl, rfl⟩

theorem closeRequest_issue_fields (rid : String) (rt now : Nat) (st : PoolState) :
    (closeRequest rid rt now st).state.warnings = st.warnings ∧
    (closeRequest rid rt now st).state.errors = st.errors ∧
    (closeRequest rid rt now st).state.recent_issues = st.recent_issues := by
  unfold closeRequest
  dsimp only
  split <;> exact ⟨rfl, rfl, rfl⟩

theorem parse_issue_fields (line : Line) (now : Nat) (st : PoolState) :
    (parse_qgis_log_line line now st).state.warnings = (detectIssuesQgis line now st).warnings ∧
    (parse_qgis_log_line line now st).state.errors = (detectIssuesQgis line now st).errors ∧
    (parse_qgis_log_line line now st).state.recent_issues =
      (detectIssuesQgis line now st).recent_issues := by
  obtain ⟨h1, h2, h3⟩ := stTracked_issue_fields line now st
  rcases parse_shape line now st with heq | ⟨rid, rt, _, _, _, heq⟩
  · rw [heq]
    obtain ⟨n1, n2, n3⟩ := noFinish_issue_fields now (stTracked line now st)
    exact ⟨n1.trans h1, n2.trans h2, n3.trans h3⟩
  · rw [heq]
    obtain ⟨n1, n2, n3⟩ := closeRequest_issue_fields rid rt now (stTracked line now st)
    exact ⟨n1.trans h1, n2.trans h2, n3.trans h3⟩

theorem detectIssuesQgis_warn (line : Line) (now : Nat) (st : PoolState)
    (hw : (pyIn "WARNING" line.raw || pyIn "WARN" line.raw) = true) :
    detectIssuesQgis line now st =
      { st with
        warnings := st.warnings + 1
        recent_issues := dequeAppend RECENT_ISSUES_MAXLEN st.recent_issues
          { timestamp := now, level := "WARNING", message := pyTruncStrip line.raw } } := by
  unfold detectIssuesQgis
  rw [hw]
  simp

theorem detectIssuesQgis_err (line : Line) (now : Nat) (st : PoolState)
    (hw : (pyIn "WARNING" line.raw || pyIn "WARN" line.raw) = false)
    (he : (pyIn "ERROR" line.raw || pyIn "CRITICAL" line.raw) = true) :
    detectIssuesQgis line now st =
      { st with
        errors := st.errors + 1
        recent_issues := dequeAppend RECENT_ISSUES_MAXLEN st.recent_issues
          { timestamp := now, level := "ERROR", message := pyTruncStrip line.raw } } := by
  unfold detectIssuesQgis
  rw [hw, he]
  simp

theorem pyTruncStrip_len (s : String) : (pyTruncStrip s).length ≤ 200 := by
  unfold pyTruncStrip
  rw [List.length_asString, List.length_take]
  exact Nat.min_le_left _ _

/-- C7 (counterexample): a QGIS-pool line containing the `Fatal` keyword
(and none of `WARNING`, `WARN`, `ERROR`, `CRITICAL`) leaves the error
counter untouched and appends no Issue, while the same line fed to the
PHP-FPM parser does increment the error counter: the keyword
classification is not uniform across the two pool kinds, contradicting
the claim as stated. -/
theorem C7_counterexample :
    (parse_qgis_log_line
        { raw := "Fatal: out of memory", requestId := none, mapMatch := none, userMatch := none,
          layersMatch := none, requestMatch := none, timeMatch := none }
        5 initialPoolState).state.errors = 0 ∧
    (parse_qgis_log_line
        { raw := "Fatal: out of memory", requestId := none, mapMatch := none, userMatch := none,
          layersMatch := none, requestMatch := none, timeMatch := none }
        5 initialPoolState).state.recent_issues = [] ∧
    (parse_php_log_line
        { raw := "Fatal: out of memory", requestId := none, mapMatch := none, userMatch := none,
          layersMatch := none, requestMatch := none, timeMatch := none }
        5 initialPoolState).errors = 1 := by
  decide

/-- C7 (amended): for every line of either pool kind, a `WARNING`/`WARN`
keyword appends a warning Issue and increments the warning counter; in
the absence of a warning keyword, `ERROR`/`CRITICAL` — and, for the
PHP-FPM parser only, also `Fatal` — appends an error Issue and
increments the error counter; every appended Issue message is the
stripped line truncated to at most 200 characters. -/
theorem C7_keyword_classification (line : Line) (now : Nat) (st : PoolState) :
    ((pyIn "WARNING" line.raw || pyIn "WARN" line.raw) = true →
      (parse_qgis_log_line line now st).state.warnings = st.warnings + 1 ∧
      (parse_qgis_log_line line now st).state.errors = st.errors ∧
      (parse_qgis_log_line line now st).state.recent_issues =
        dequeAppend RECENT_ISSUES_MAXLEN st.recent_issues
          { timestamp := now, level := "WARNING", message := pyTruncStrip line.raw }) ∧
    ((pyIn "WARNING" line.raw || pyIn "WARN" line.raw) = false →
      (pyIn "ERROR" line.raw || pyIn "CRITICAL" line.raw) = true →
      (parse_qgis_log_line line now st).state.errors = st.errors + 1 ∧
      (parse_qgis_log_line line now st).state.warnings = st.warnings ∧
      (parse_qgis_log_line line now st).state.recent_issues =
        dequeAppend RECENT_ISSUES_MAXLEN st.recent_issues
          { timestamp := now, level := "ERROR", message := pyTruncStrip line.raw }) ∧
    ((pyIn "WARNING" line.raw || pyIn "WARN" line.raw) = true →
      parse_php_log_line line now st =
        { st with
          warnings := st.warnings + 1
          recent_issues := dequeAppend RECENT_ISSUES_MAXLEN st.recent_issues
            { timestamp := now, level := "WARNING", message := pyTruncStrip line.raw } }) ∧
    ((pyIn "WARNING" line.raw || pyIn "WARN" line.raw) = false →
      (pyIn "ERROR" line.raw || pyIn "CRITICAL" line.raw || pyIn "Fatal" line.raw) = true →
      parse_php_log_line line now st =
        { st with
          errors := st.errors + 1
          recent_issues := dequeAppend RECENT_ISSUES_MAXLEN st.recent_issues
            { timestamp := now, level := "ERROR", message := pyTruncStrip line.raw } }) ∧
    (pyTruncStrip line.raw).length ≤ 200 := by
  obtain ⟨p1, p2, p3⟩ := parse_issue_fields line now st
  refine ⟨?_, ?_, ?_, ?_, pyTruncStrip_len line.raw⟩
  · intro hw
    rw [p1, p2, p3, detectIssuesQgis_warn line now st hw]
    exact ⟨rfl, rfl, rfl⟩
  · intro hw he
    rw [p1, p2, p3, detectIssuesQgis_err line now st hw he]
    exact ⟨rfl, rfl, rfl⟩
  · intro hw
    unfold parse_php_log_line
    rw [hw]
    simp
  · intro hw he
    unfold parse_php_log_line
    rw [hw, he]
    simp

/-- C7 (witness): the amended classification applied to the concrete
line `"WARNING: low disk"`, for both parsers, starting from the empty
pool state. -/
theorem C7_keyword_classification_witness :
    (parse_qgis_log_line
        { raw := "WARNING: low disk", requestId := none, mapMatch := none, userMatch := none,
          layersMatch := none, requestMatch := none, timeMatch := none }
        7 initialPoolState).state.warnings = 1 ∧
    (parse_php_log_line
        { raw := "WARNING: low disk", requestId := none, mapMatch := none, userMatch := none,
          layersMatch := none, requestMatch := none, timeMatch := none }
        7 initialPoolState).warnings = 1 := by
  have h := C7_keyword_classification
    { raw := "WARNING: low disk", requestId := none, mapMatch := none, userMatch := none,
      layersMatch := none, requestMatch := none, timeMatch := none }
    7 initialPoolState
  refine ⟨(h.1 (by decide)).1.trans (by decide), ?_⟩
  rw [h.2.2.1 (by decide)]
  decide

/-- C9: when a line carries both a warning keyword (`WARNING`/`WARN`) and
an error keyword (`ERROR`/`CRITICAL`; also `Fatal` for the PHP parser),
only the warning branch fires in either parser — the warning counter is
incremented and a WARNING issue appended, while the error counter and
the issue buffer see no error entry: warning detection takes precedence
(the `elif` chains at monitor.py lines 322-336 and 522-535). -/
theorem C9_warning_precedence (line : Line) (now : Nat) (st : PoolState)
    (hw : (pyIn "WARNING" line.raw || pyIn "WARN" line.raw) = true)
    (he : (pyIn "ERROR" line.raw || pyIn "CRITICAL" line.raw
      || pyIn "Fatal" line.raw) = true) :
    ((parse_qgis_log_line line now st).state.warnings = st.warnings + 1 ∧
      (parse_qgis_log_line line now st).state.errors = st.errors ∧
      (parse_qgis_log_line line now st).state.recent_issues =
        dequeAppend RECENT_ISSUES_MAXLEN st.recent_issues
          { timestamp := now, level := "WARNING", message := pyTruncStrip line.raw }) ∧
    ((parse_php_log_line line now st).warnings = st.warnings + 1 ∧
      (parse_php_log_line line now st).errors = st.errors ∧
      (parse_php_log_line line now st).recent_issues =
        dequeAppend RECENT_ISSUES_MAXLEN st.recent_issues
          { timestamp := now, level := "WARNING", message := pyTruncStrip line.raw }) := by
  obtain ⟨p1, p2, p3⟩ := parse_issue_fields line now st
  constructor
  · rw [p1, p2, p3, detectIssuesQgis_warn line now st hw]
    exact ⟨rfl, rfl, rfl⟩
  · unfold parse_php_log_line
    rw [hw]
    exact ⟨rfl, rfl, rfl⟩

/-- C9 (witness): the precedence applied to the concrete line
`"WARN then ERROR"`, which carries both keyword families. -/
theorem C9_warning_precedence_witness :
    (parse_qgis_log_line
        { raw := "WARN then ERROR", requestId := none, mapMatch := none, userMatch := none,
          layersMatch := none, requestMatch := none, timeMatch := none }
        3 initialPoolState).state.errors = 0 ∧
    (parse_php_log_line
        { raw := "WARN then ERROR", requestId := none, mapMatch := none, userMatch := none,
          layersMatch := none, requestMatch := none, timeMatch := none }
        3 initialPoolState).warnings = 1 := by
  have h := C9_warning_precedence
    { raw := "WARN then ERROR", requestId := none, mapMatch := none, userMatch := none,
      layersMatch := none, requestMatch := none, timeMatch := none }
    3 initialPoolState (by decide) (by decide)
  exact ⟨h.1.2.1, h.2.1⟩

/-- C6 (counterexample): recording a second GETMAP request with the same
elapsed time as an existing slowest-list entry produces a list with two
equal elapsed values, which is not *strictly* descending — the
strictness in the claim fails on ties. -/
theorem C6_counterexample :
    ¬ List.Sorted (fun a b => b.response_time < a.response_time)
      (add_to_slowest 100 1000000 "1"
        { map := none, user := none, layers := none, request_type := some "GETMAP",
          start_time := 0, raw_request_id := "1" }
        [{ response_time := 100, timestamp := 999999, request_id := "0",
           meta := { map := none, user := none, layers := none,
                     request_type := some "GETMAP" } }]) := by
  decide

/-- C6 (amended): immediately after a mutating `add_to_slowest` call
(request type present, nonempty and equal to GETMAP after upper-casing),
the slowest list has length at most `SLOWEST_REQUESTS_COUNT`, every entry
has a timestamp at least the mutation time minus the window, and the
list is sorted descending by elapsed time (non-strictly: tied elapsed
values may sit adjacent). -/
theorem C6_slowest_invariants (response_time timestamp : Nat) (request_id : String)
    (details : ReqDetails) (slowest : List SlowEntry) (s : String)
    (hs : details.request_type = some s) (hne : (s == "") = false)
    (hup : (pyUpper s != "GETMAP") = false) :
    (add_to_slowest response_time timestamp request_id details slowest).length ≤
      SLOWEST_REQUESTS_COUNT ∧
    (∀ e ∈ add_to_slowest response_time timestamp request_id details slowest,
      timestamp - SLOWEST_REQUESTS_WINDOW_MS ≤ e.timestamp) ∧
    List.Sorted (fun a b => b.response_time ≤ a.response_time)
      (add_to_slowest response_time timestamp request_id details slowest) := by
  haveI hTot : IsTotal SlowEntry (fun a b => b.response_time ≤ a.response_time) :=
    ⟨fun a b => le_total b.response_time a.response_time⟩
  haveI hTrans : IsTrans SlowEntry (fun a b => b.response_time ≤ a.response_time) :=
    ⟨fun _ _ _ hab hbc => le_trans hbc hab⟩
  unfold add_to_slowest
  rw [hs]
  dsimp only
  rw [if_neg (by simp [hne]), if_neg (by simp [hup])]
  refine ⟨List.length_take_le _ _, ?_, ?_⟩
  · intro e he
    have hsub := List.take_subset SLOWEST_REQUESTS_COUNT _ he
    have he2 := (List.perm_insertionSort
      (fun a b : SlowEntry => b.response_time ≤ a.response_time) _).mem_iff.1 hsub
    rcases List.mem_append.1 he2 with hk | hk
    · have := (List.mem_filter.1 hk).2
      simpa using this
    · simp only [List.mem_singleton] at hk
      subst hk
      exact Nat.sub_le _ _
  · exact List.Pairwise.sublist (List.take_sublist _ _)
      (List.sorted_insertionSort (fun a b : SlowEntry => b.response_time ≤ a.response_time) _)

/-- C6 (witness): the amended invariants at a concrete GETMAP request
entering an empty slowest list. -/
theorem C6_slowest_invariants_witness :
    (add_to_slowest 250 1000000 "9"
      { map := some "m", user := none, layers := none, request_type := some "GETMAP",
        start_time := 0, raw_request_id := "9" } []).length ≤ SLOWEST_REQUESTS_COUNT ∧
    List.Sorted (fun a b => b.response_time ≤ a.response_time)
      (add_to_slowest 250 1000000 "9"
        { map := some "m", user := none, layers := none, request_type := some "GETMAP",
          start_time := 0, raw_request_id := "9" } []) := by
  have h := C6_slowest_invariants 250 1000000 "9"
    { map := some "m", user := none, layers := none, request_type := some "GETMAP",
      start_time := 0, raw_request_id := "9" } [] "GETMAP" rfl (by decide) (by decide)
  exact ⟨h.1, h.2.2⟩

/-- C4: `calculate_response_stats` returns the zero summary when no
sample lies in the window; otherwise it returns the in-window count, a
minimum and maximum attained on the in-window samples, the arithmetic
mean rounded to one decimal, and the nearest-rank 95th percentile — the
element at index `count * 95 / 100` (the exact value of
`int(count * 0.95)`) of an ascending sorted permutation of the in-window
samples.  On samples `[100, 200, 300, 400, 500]`, all inside the window,
it yields `avg = 300, min = 100, max = 500, count = 5, p95 = 500`. -/
theorem C4_recent_stats (samples : List (Nat × Nat)) (now window : Nat) (w : List Nat)
    (hw : w = (samples.filter (fun p => decide (now - window ≤ p.1))).map Prod.snd) :
    (w = [] → calculate_response_stats samples now window =
      { avg := 0, min := 0, max := 0, count := 0, p95 := 0 }) ∧
    (w ≠ [] →
      (calculate_response_stats samples now window).count = w.length ∧
      (calculate_response_stats samples now window).min ∈ w ∧
      (∀ x ∈ w, (calculate_response_stats samples now window).min ≤ x) ∧
      (calculate_response_stats samples now window).max ∈ w ∧
      (∀ x ∈ w, x ≤ (calculate_response_stats samples now window).max) ∧
      (calculate_response_stats samples now window).avg =
        round1 ((w.sum : ℚ) / (w.length : ℚ)) ∧
      ∃ l, l.Perm w ∧ List.Sorted (· ≤ ·) l ∧
        (calculate_response_stats samples now window).p95 =
          l.getD (w.length * 95 / 100) 0) ∧
    calculate_response_stats [(999000, 100), (999001, 200), (999002, 300), (999003, 400),
        (999004, 500)] 1000000 600000 =
      { avg := 300, min := 100, max := 500, count := 5, p95 := 500 } := by
  subst hw
  refine ⟨?_, ?_, ?_⟩
  · intro hempty
    unfold calculate_response_stats
    dsimp only
    rw [hempty]
    rfl
  · intro hne
    unfold calculate_response_stats
    dsimp only
    rw [if_neg (by simpa [List.isEmpty_iff] using hne)]
    have hperm := List.perm_insertionSort (α := Nat) (· ≤ ·)
      ((samples.filter (fun p => decide (now - window ≤ p.1))).map Prod.snd)
    have hlen := hperm.length_eq
    have hsne : List.insertionSort (· ≤ ·)
        ((samples.filter (fun p => decide (now - window ≤ p.1))).map Prod.snd) ≠ [] := by
      intro h0
      rw [h0] at hperm
      exact hne hperm.nil_eq.symm
    obtain ⟨hminmem, hminle⟩ := pyMinList_spec hsne
    obtain ⟨hmaxmem, hmaxle⟩ := pyMaxList_spec hsne
    refine ⟨hlen, hperm.mem_iff.1 hminmem, ?_, hperm.mem_iff.1 hmaxmem, ?_, ?_, ?_⟩
    · intro x hx
      exact hminle x (hperm.mem_iff.2 hx)
    · intro x hx
      exact hmaxle x (hperm.mem_iff.2 hx)
    · show round1 _ = round1 _
      rw [hperm.sum_eq, hlen]
    · refine ⟨List.insertionSort (· ≤ ·)
        ((samples.filter (fun p => decide (now - window ≤ p.1))).map Prod.snd),
        hperm, List.sorted_insertionSort (· ≤ ·) _, ?_⟩
      show (if 0 < _ then _ else _) = _
      rw [if_pos (by rw [hlen]; exact List.length_pos.2 hne), hlen]
  · rw [show calculate_response_stats [(999000, 100), (999001, 200), (999002, 300),
        (999003, 400), (999004, 500)] 1000000 600000 =
      { avg := round1 (((1500 : ℕ) : ℚ) / ((5 : ℕ) : ℚ)), min := 100, max := 500, count := 5,
        p95 := 500 } from rfl]
    simp only [RespStats.mk.injEq, and_true]
    norm_num [round1, rhe, ratFloor]

/-- C4 (witness): the statistics computation applied to two concrete
sample lists, one with both samples in the window and one empty. -/
theorem C4_recent_stats_witness :
    (calculate_response_stats [(999000, 100), (999001, 200)] 1000000 600000).count = 2 ∧
    calculate_response_stats [] 5 5 =
      { avg := 0, min := 0, max := 0, count := 0, p95 := 0 } := by
  have h1 := C4_recent_stats [(999000, 100), (999001, 200)] 1000000 600000 [100, 200]
    (by decide)
  have h2 := C4_recent_stats [] 5 5 [] (by decide)
  exact ⟨((h1.2.1 (by decide)).1).trans (by decide), h2.1 rfl⟩

/-- C5 (counterexample): a successful completion line returns from
`parse_qgis_log_line` before the abandonment sweep runs (the early
`return True` at monitor.py line 466), so processing this line leaves an
open entry for raw id `7` whose discovery time (0) is older than the
timeout relative to the processing time (1000000 ms): the claim's "on
every processed line" fails on completion lines. -/
theorem C5_counterexample :
    (parse_qgis_log_line
        { raw := "[42] Request finished in 5 ms", requestId := some "42", mapMatch := none,
          userMatch := none, layersMatch := none, requestMatch := none, timeMatch := some 5 }
        1000000
        { response_times := [], current_requests := [("7_0",
            { map := none, user := none, layers := none, request_type := none,
              start_time := 0, raw_request_id := "7" })],
          slowest_requests := [], requests_total := 0, errors := 0, warnings := 0,
          recent_issues := [] }).state.current_requests.any
      (fun kv => decide (kv.2.start_time < 1000000 - REQUEST_TRACKING_TIMEOUT_MS)) = true := by
  decide

/-- C5 (amended): on every processed line that does not record a
completion (the parser returns `False` — i.e. every line except a
finished marker with a request id and parsed elapsed time > 0), no
completed request is emitted and, immediately after processing, no open
entry of the pool is older than the timeout relative to the processing
time.  On completion lines the function returns before the sweep. -/
theorem C5_abandonment_sweep (line : Line) (now : Nat) (st : PoolState)
    (h : (parse_qgis_log_line line now st).finished = false) :
    (parse_qgis_log_line line now st).closed = none ∧
    (parse_qgis_log_line line now st).dbRows = [] ∧
    ∀ kv ∈ (parse_qgis_log_line line now st).state.current_requests,
      ¬ (kv.2.start_time < now - REQUEST_TRACKING_TIMEOUT_MS) := by
  rcases parse_shape line now st with heq | ⟨rid, rt, _, _, _, heq⟩
  · rw [heq]
    refine ⟨rfl, rfl, ?_⟩
    intro kv hkv
    have hmem : kv ∈ sweepOld now (stTracked line now st).current_requests := hkv
    unfold sweepOld at hmem
    have hp := (List.mem_filter.1 hmem).2
    simpa using hp
  · rw [heq, closeRequest_finished] at h
    exact absurd h (by simp)

/-- C5 (witness): the amended sweep statement applied to a concrete
non-completion line. -/
theorem C5_abandonment_sweep_witness :
    (parse_qgis_log_line
        { raw := "startup banner", requestId := none, mapMatch := none, userMatch := none,
          layersMatch := none, requestMatch := none, timeMatch := none }
        1000000 initialPoolState).closed = none :=
  (C5_abandonment_sweep
    { raw := "startup banner", requestId := none, mapMatch := none, userMatch := none,
      layersMatch := none, requestMatch := none, timeMatch := none }
    1000000 initialPoolState (by decide)).1

theorem stTracked_resp (line : Line) (now : Nat) (st : PoolState) :
    (stTracked line now st).response_times = st.response_times := by
  unfold stTracked
  cases hr : line.requestId
  · exact detectIssuesQgis_resp line now st
  · exact detectIssuesQgis_resp line now st

theorem stTracked_total (line : Line) (now : Nat) (st : PoolState) :
    (stTracked line now st).requests_total = st.requests_total := by
  unfold stTracked
  cases hr : line.requestId
  · exact detectIssuesQgis_total line now st
  · exact detectIssuesQgis_total line now st

theorem stTracked_slowest (line : Line) (now : Nat) (st : PoolState) :
    (stTracked line now st).slowest_requests = st.slowest_requests := by
  unfold stTracked
  cases hr : line.requestId
  · exact detectIssuesQgis_slowest line now st
  · exact detectIssuesQgis_slowest line now st

theorem trackFields_any (line : Line) (kc : String × List (String × ReqDetails))
    (p : String → Bool) :
    (trackFields line kc).2.any (fun kv => p kv.1) = kc.2.any (fun kv => p kv.1) := by
  unfold trackFields
  dsimp only
  repeat' split
  all_goals first
    | rfl
    | (dsimp only; exact dictUpdate_any_fst kc.2 kc.1 _ p)

theorem trackFind_any (rid : String) (line : Line) (now : Nat)
    (cur : List (String × ReqDetails)) :
    (trackFind rid line now cur).2.any (fun kv => pyStartsWith kv.1 (rid ++ "_")) = true := by
  unfold trackFind
  dsimp only
  split
  · dsimp only
    exact dictSet_any_key cur (mkKey rid now) (freshDetails now rid)
      (fun x => pyStartsWith x (rid ++ "_")) (pyStartsWith_mkKey rid now)
  · split
    · next k hk =>
      have hkmem := pyMaxBy_mem hk
      rw [List.mem_filter] at hkmem
      obtain ⟨hkmap, hkpred⟩ := hkmem
      obtain ⟨kv, hkv, hfst⟩ := List.mem_map.1 hkmap
      rw [List.any_eq_true]
      exact ⟨kv, hkv, by rw [hfst]; exact hkpred⟩
    · dsimp only
      exact dictSet_any_key cur (mkKey rid now) (freshDetails now rid)
        (fun x => pyStartsWith x (rid ++ "_")) (pyStartsWith_mkKey rid now)

theorem trackRequest_exists (rid : String) (line : Line) (now : Nat)
    (cur : List (String × ReqDetails)) :
    (trackRequest rid line now cur).2.any (fun kv => pyStartsWith kv.1 (rid ++ "_")) = true := by
  unfold trackRequest
  rw [trackFields_any line (trackFind rid line now cur)
    (fun x => pyStartsWith x (rid ++ "_"))]
  exact trackFind_any rid line now cur

theorem parse_notfinished_eq (line : Line) (now : Nat) (st : PoolState)
    (hfin : (pyIn "Request finished" line.raw || pyIn "request finished" line.raw) = false) :
    parse_qgis_log_line line now st = noFinish now (stTracked line now st) := by
  cases hrid : line.requestId with
  | none =>
    unfold parse_qgis_log_line
    rw [hrid]
  | some rid =>
    unfold parse_qgis_log_line
    rw [hrid]
    dsimp only
    rw [hfin]
    rfl

theorem add_to_slowest_skip (rt ts : Nat) (rid : String) (details : ReqDetails)
    (slowest : List SlowEntry)
    (htype : details.request_type = none ∨ details.request_type = some "" ∨
      ∃ s, details.request_type = some s ∧ pyUpper s ≠ "GETMAP") :
    add_to_slowest rt ts rid details slowest = slowest := by
  unfold add_to_slowest
  rcases htype with h | h | ⟨s, h, hup⟩ <;> rw [h]
  · simp
  · dsimp only
    by_cases hse : s = ""
    · simp [hse]
    · rw [if_neg (by simp [hse]), if_pos (by simp only [bne_iff_ne, ne_eq]; exact hup)]

/-- C2: a line carrying a bracketed request id and a finished marker with
parsed elapsed time strictly positive closes the most-recent open entry
for that raw id (the matching tracking key with the greatest embedded
discovery timestamp), increments the total-request counter by exactly
one, appends the sample `(now, elapsed)` to the response-time buffer,
and removes exactly the closed tracking key from the pending dict; when
the parsed elapsed time is 0 (the regex captures a nonnegative integer,
so elapsed ≤ 0 means elapsed = 0), no sample is recorded and the counter
is unchanged.  Stated for plain completion lines (no new-request or
field markers on the same line) with at least one matching open entry. -/
theorem C2_completion (line : Line) (rid : String) (rt now : Nat) (st : PoolState)
    (hrid : line.requestId = some rid)
    (hfin : (pyIn "Request finished" line.raw || pyIn "request finished" line.raw) = true)
    (ht : line.timeMatch = some rt)
    (hacc : pyIn "QGIS Request accepted" line.raw = false)
    (hmap : pyIn "MAP:" line.raw = false)
    (huser : pyIn "LIZMAP_USER:" line.raw = false)
    (hlay : pyIn "LAYERS:" line.raw = false)
    (hreq : pyIn "REQUEST:" line.raw = false)
    (hne : st.current_requests.filter (fun kv => pyStartsWith kv.1 (rid ++ "_")) ≠ []) :
    (0 < rt →
      (parse_qgis_log_line line now st).finished = true ∧
      (parse_qgis_log_line line now st).state.requests_total = st.requests_total + 1 ∧
      (parse_qgis_log_line line now st).state.response_times =
        dequeAppend RESPONSE_TIMES_MAXLEN st.response_times (now, rt) ∧
      ∃ kv, (parse_qgis_log_line line now st).closed = some kv ∧
        kv ∈ st.current_requests.filter (fun kv => pyStartsWith kv.1 (rid ++ "_")) ∧
        (∀ e ∈ st.current_requests.filter (fun kv => pyStartsWith kv.1 (rid ++ "_")),
          keyMs e.1 ≤ keyMs kv.1) ∧
        (parse_qgis_log_line line now st).state.current_requests =
          st.current_requests.eraseP (fun e => e.1 == kv.1)) ∧
    (rt = 0 →
      (parse_qgis_log_line line now st).finished = false ∧
      (parse_qgis_log_line line now st).state.response_times = st.response_times ∧
      (parse_qgis_log_line line now st).state.requests_total = st.requests_total) := by
  have hkeys : ((st.current_requests.map Prod.fst).filter
      (fun x => pyStartsWith x (rid ++ "_"))) ≠ [] := by
    obtain ⟨kv, hkv⟩ := List.exists_mem_of_ne_nil _ hne
    have h1 := List.mem_filter.1 hkv
    exact List.ne_nil_of_mem (List.mem_filter.2 ⟨List.mem_map_of_mem Prod.fst h1.1, h1.2⟩)
  obtain ⟨k, hk⟩ := pyMaxBy_isSome (f := keyMs) hkeys
  constructor
  · intro hrt
    have heq := parse_finished_eq line rid rt now st hrid hfin ht hrt
    have hplain := stTracked_plain line rid now st k hrid hacc hmap huser hlay hreq hk
    rw [heq, hplain]
    obtain ⟨kv, hkv⟩ := pyMaxBy_isSome (f := fun kv => keyMs kv.1) hne
    have hkv2 : pyMaxBy (fun kv => keyMs kv.1)
        ((detectIssuesQgis line now st).current_requests.filter
          (fun kv => pyStartsWith kv.1 (rid ++ "_"))) = some kv := by
      rw [detectIssuesQgis_cur]
      exact hkv
    rw [closeRequest_spec rid rt now _ kv hkv2]
    refine ⟨rfl, ?_, ?_, kv, rfl, pyMaxBy_mem hkv, pyMaxBy_le hkv, ?_⟩
    · show (detectIssuesQgis line now st).requests_total + 1 = st.requests_total + 1
      rw [detectIssuesQgis_total]
    · show dequeAppend RESPONSE_TIMES_MAXLEN (detectIssuesQgis line now st).response_times
        (now, rt) = _
      rw [detectIssuesQgis_resp]
    · show dictDel (detectIssuesQgis line now st).current_requests kv.1 = _
      rw [detectIssuesQgis_cur]
      rfl
  · intro hrt0
    have hrt' : ¬ 0 < rt := by omega
    have heq : parse_qgis_log_line line now st = noFinish now (stTracked line now st) := by
      unfold parse_qgis_log_line
      rw [hrid]
      dsimp only
      rw [hfin, ht]
      dsimp only
      rw [if_neg hrt']
      simp
    rw [heq]
    exact ⟨rfl, stTracked_resp line now st, stTracked_total line now st⟩

/-- C2 (witness): a concrete completion line with elapsed 7 ms closing
the single open entry for raw id 42. -/
theorem C2_completion_witness :
    (parse_qgis_log_line
        { raw := "[42] Request finished in 7 ms", requestId := some "42", mapMatch := none,
          userMatch := none, layersMatch := none, requestMatch := none, timeMatch := some 7 }
        1000000
        { response_times := [], current_requests := [("42_900000",
            { map := some "proj", user := none, layers := none, request_type := some "GETMAP",
              start_time := 900000, raw_request_id := "42" })],
          slowest_requests := [], requests_total := 3, errors := 0, warnings := 0,
          recent_issues := [] }).finished = true ∧
    (parse_qgis_log_line
        { raw := "[42] Request finished in 7 ms", requestId := some "42", mapMatch := none,
          userMatch := none, layersMatch := none, requestMatch := none, timeMatch := some 7 }
        1000000
        { response_times := [], current_requests := [("42_900000",
            { map := some "proj", user := none, layers := none, request_type := some "GETMAP",
              start_time := 900000, raw_request_id := "42" })],
          slowest_requests := [], requests_total := 3, errors := 0, warnings := 0,
          recent_issues := [] }).state.requests_total = 4 := by
  have h := C2_completion
    { raw := "[42] Request finished in 7 ms", requestId := some "42", mapMatch := none,
      userMatch := none, layersMatch := none, requestMatch := none, timeMatch := some 7 }
    "42" 7 1000000
    { response_times := [], current_requests := [("42_900000",
        { map := some "proj", user := none, layers := none, request_type := some "GETMAP",
          start_time := 900000, raw_request_id := "42" })],
      slowest_requests := [], requests_total := 3, errors := 0, warnings := 0,
      recent_issues := [] }
    rfl (by decide) rfl (by decide) (by decide) (by decide) (by decide) (by decide) (by decide)
  exact ⟨(h.1 (by decide)).1, ((h.1 (by decide)).2.1).trans (by decide)⟩

/-- C3: when the completion closes an entry whose request type is absent
(`None`), empty, or different from GETMAP after upper-casing (e.g.
`GETCAPABILITIES`), the total-request counter is still incremented, but
no row is submitted to the durable store and the slowest list is
unchanged — persistence and slow-ranking are reserved for GETMAP.
Stated for plain completion lines closing the entry `kv` selected as the
most recent for the raw id. -/
theorem C3_non_getmap_counted_not_persisted (line : Line) (rid : String) (rt now : Nat)
    (st : PoolState) (kv : String × ReqDetails)
    (hrid : line.requestId = some rid)
    (hfin : (pyIn "Request finished" line.raw || pyIn "request finished" line.raw) = true)
    (ht : line.timeMatch = some rt) (hrt : 0 < rt)
    (hacc : pyIn "QGIS Request accepted" line.raw = false)
    (hmap : pyIn "MAP:" line.raw = false)
    (huser : pyIn "LIZMAP_USER:" line.raw = false)
    (hlay : pyIn "LAYERS:" line.raw = false)
    (hreq : pyIn "REQUEST:" line.raw = false)
    (hkv : pyMaxBy (fun kv => keyMs kv.1)
      (st.current_requests.filter (fun kv => pyStartsWith kv.1 (rid ++ "_"))) = some kv)
    (htype : kv.2.request_type = none ∨ kv.2.request_type = some "" ∨
      ∃ s, kv.2.request_type = some s ∧ pyUpper s ≠ "GETMAP") :
    (parse_qgis_log_line line now st).state.requests_total = st.requests_total + 1 ∧
    (parse_qgis_log_line line now st).dbRows = [] ∧
    (parse_qgis_log_line line now st).state.slowest_requests = st.slowest_requests := by
  have hne : st.current_requests.filter (fun kv => pyStartsWith kv.1 (rid ++ "_")) ≠ [] := by
    intro h0
    rw [h0] at hkv
    simp [pyMaxBy] at hkv
  have hkeys : ((st.current_requests.map Prod.fst).filter
      (fun x => pyStartsWith x (rid ++ "_"))) ≠ [] := by
    obtain ⟨kv', hkv'⟩ := List.exists_mem_of_ne_nil _ hne
    have h1 := List.mem_filter.1 hkv'
    exact List.ne_nil_of_mem (List.mem_filter.2 ⟨List.mem_map_of_mem Prod.fst h1.1, h1.2⟩)
  obtain ⟨k, hk⟩ := pyMaxBy_isSome (f := keyMs) hkeys
  rw [parse_finished_eq line rid rt now st hrid hfin ht hrt,
    stTracked_plain line rid now st k hrid hacc hmap huser hlay hreq hk]
  have hkv2 : pyMaxBy (fun kv => keyMs kv.1)
      ((detectIssuesQgis line now st).current_requests.filter
        (fun kv => pyStartsWith kv.1 (rid ++ "_"))) = some kv := by
    rw [detectIssuesQgis_cur]
    exact hkv
  rw [closeRequest_spec rid rt now _ kv hkv2]
  refine ⟨?_, ?_, ?_⟩
  · show (detectIssuesQgis line now st).requests_total + 1 = st.requests_total + 1
    rw [detectIssuesQgis_total]
  · show (match kv.2.request_type with
      | none => ([] : List DbRow)
      | some s =>
        if s == "" then []
        else if pyUpper s == "GETMAP" then
          [{ project := kv.2.map, user := kv.2.user, layers := kv.2.layers,
             request_type := kv.2.request_type, response_time := rt, request_id := rid }]
        else []) = []
    rcases htype with h | h | ⟨s, h, hup⟩
    · rw [h]
    · rw [h]
      simp
    · rw [h]
      dsimp only
      by_cases hse : s = ""
      · simp [hse]
      · rw [if_neg (by simp [hse]), if_neg (by simp only [beq_iff_eq]; exact hup)]
  · show add_to_slowest rt now rid kv.2 (detectIssuesQgis line now st).slowest_requests =
      st.slowest_requests
    rw [detectIssuesQgis_slowest,
      add_to_slowest_skip rt now rid kv.2 st.slowest_requests htype]

/-- C3 (witness): a completed `GETCAPABILITIES` request is counted but
produces no database row and leaves the slowest list empty. -/
theorem C3_non_getmap_witness :
    (parse_qgis_log_line
        { raw := "[42] Request finished in 9 ms", requestId := some "42", mapMatch := none,
          userMatch := none, layersMatch := none, requestMatch := none, timeMatch := some 9 }
        1000000
        { response_times := [], current_requests := [("42_900000",
            { map := some "proj", user := none, layers := none,
              request_type := some "GETCAPABILITIES", start_time := 900000,
              raw_request_id := "42" })],
          slowest_requests := [], requests_total := 0, errors := 0, warnings := 0,
          recent_issues := [] }).state.requests_total = 1 ∧
    (parse_qgis_log_line
        { raw := "[42] Request finished in 9 ms", requestId := some "42", mapMatch := none,
          userMatch := none, layersMatch := none, requestMatch := none, timeMatch := some 9 }
        1000000
        { response_times := [], current_requests := [("42_900000",
            { map := some "proj", user := none, layers := none,
              request_type := some "GETCAPABILITIES", start_time := 900000,
              raw_request_id := "42" })],
          slowest_requests := [], requests_total := 0, errors := 0, warnings := 0,
          recent_issues := [] }).dbRows = [] ∧
    (parse_qgis_log_line
        { raw := "[42] Request finished in 9 ms", requestId := some "42", mapMatch := none,
          userMatch := none, layersMatch := none, requestMatch := none, timeMatch := some 9 }
        1000000
        { response_times := [], current_requests := [("42_900000",
            { map := some "proj", user := none, layers := none,
              request_type := some "GETCAPABILITIES", start_time := 900000,
              raw_request_id := "42" })],
          slowest_requests := [], requests_total := 0, errors := 0, warnings := 0,
          recent_issues := [] }).state.slowest_requests = [] := by
  have h := C3_non_getmap_counted_not_persisted
    { raw := "[42] Request finished in 9 ms", requestId := some "42", mapMatch := none,
      userMatch := none, layersMatch := none, requestMatch := none, timeMatch := some 9 }
    "42" 9 1000000
    { response_times := [], current_requests := [("42_900000",
        { map := some "proj", user := none, layers := none,
          request_type := some "GETCAPABILITIES", start_time := 900000,
          raw_request_id := "42" })],
      slowest_requests := [], requests_total := 0, errors := 0, warnings := 0,
      recent_issues := [] }
    ("42_900000",
      { map := some "proj", user := none, layers := none,
        request_type := some "GETCAPABILITIES", start_time := 900000,
        raw_request_id := "42" })
    rfl (by decide) rfl (by decide) (by decide) (by decide) (by decide) (by decide) (by decide)
    (by decide) (Or.inr (Or.inr ⟨"GETCAPABILITIES", rfl, by decide⟩))
  exact ⟨h.1.trans (by decide), h.2.1, h.2.2.trans (by decide)⟩

/-- C10: whenever a line carries a request id and a finished marker with
elapsed > 0, the tracking block earlier in the same call guarantees that
at least one tracking key for that raw id is pending at the moment the
completion handler runs, so the handler's no-matching-keys branch is
unreachable (`closed` is always produced) and exactly one pending entry
is removed by the completion. -/
theorem C10_completion_key_exists (line : Line) (rid : String) (rt now : Nat) (st : PoolState)
    (hrid : line.requestId = some rid)
    (hfin : (pyIn "Request finished" line.raw || pyIn "request finished" line.raw) = true)
    (ht : line.timeMatch = some rt) (hrt : 0 < rt) :
    (stTracked line now st).current_requests.any
      (fun kv => pyStartsWith kv.1 (rid ++ "_")) = true ∧
    (parse_qgis_log_line line now st).finished = true ∧
    (parse_qgis_log_line line now st).closed.isSome = true ∧
    (parse_qgis_log_line line now st).state.current_requests.length + 1 =
      (stTracked line now st).current_requests.length := by
  have hany : (stTracked line now st).current_requests.any
      (fun kv => pyStartsWith kv.1 (rid ++ "_")) = true := by
    unfold stTracked
    rw [hrid]
    dsimp only
    exact trackRequest_exists rid line now (detectIssuesQgis line now st).current_requests
  have hfil : (stTracked line now st).current_requests.filter
      (fun kv => pyStartsWith kv.1 (rid ++ "_")) ≠ [] := by
    rw [List.any_eq_true] at hany
    obtain ⟨kv, hkv, hp⟩ := hany
    exact List.ne_nil_of_mem (List.mem_filter.2 ⟨hkv, hp⟩)
  obtain ⟨kv, hkv⟩ := pyMaxBy_isSome (f := fun kv => keyMs kv.1) hfil
  rw [parse_finished_eq line rid rt now st hrid hfin ht hrt,
    closeRequest_spec rid rt now (stTracked line now st) kv hkv]
  refine ⟨hany, rfl, rfl, ?_⟩
  have hkvmem : kv ∈ (stTracked line now st).current_requests :=
    (List.mem_filter.1 (pyMaxBy_mem hkv)).1
  exact dictDel_length hkvmem

/-- C10 (witness): a finished line for raw id 42 arriving with no open
entry at all — the call lazily creates the key and then closes it,
leaving the pending dict as it started. -/
theorem C10_completion_key_exists_witness :
    (parse_qgis_log_line
        { raw := "[42] Request finished in 5 ms", requestId := some "42", mapMatch := none,
          userMatch := none, layersMatch := none, requestMatch := none, timeMatch := some 5 }
        1000000 initialPoolState).finished = true ∧
    (parse_qgis_log_line
        { raw := "[42] Request finished in 5 ms", requestId := some "42", mapMatch := none,
          userMatch := none, layersMatch := none, requestMatch := none, timeMatch := some 5 }
        1000000 initialPoolState).closed.isSome = true := by
  have h := C10_completion_key_exists
    { raw := "[42] Request finished in 5 ms", requestId := some "42", mapMatch := none,
      userMatch := none, layersMatch := none, requestMatch := none, timeMatch := some 5 }
    "42" 5 1000000 initialPoolState rfl (by decide) rfl (by decide)
  exact ⟨h.2.1, h.2.2.1⟩

theorem close_filtered_single (line : Line) (rid : String) (rt now t : Nat) (S : PoolState)
    (d : ReqDetails)
    (hrid : line.requestId = some rid)
    (hfin : (pyIn "Request finished" line.raw || pyIn "request finished" line.raw) = true)
    (ht : line.timeMatch = some rt) (hrt : 0 < rt)
    (hacc : pyIn "QGIS Request accepted" line.raw = false)
    (hmap : pyIn "MAP:" line.raw = false)
    (huser : pyIn "LIZMAP_USER:" line.raw = false)
    (hlay : pyIn "LAYERS:" line.raw = false)
    (hreq : pyIn "REQUEST:" line.raw = false)
    (hfil : S.current_requests.filter (fun kv => pyStartsWith kv.1 (rid ++ "_")) =
      [(mkKey rid t, d)]) :
    (parse_qgis_log_line line now S).closed = some (mkKey rid t, d) ∧
    (parse_qgis_log_line line now S).state.current_requests =
      dictDel S.current_requests (mkKey rid t) ∧
    (parse_qgis_log_line line now S).state.slowest_requests =
      add_to_slowest rt now rid d S.slowest_requests := by
  have hkeys : (S.current_requests.map Prod.fst).filter
      (fun x => pyStartsWith x (rid ++ "_")) = [mkKey rid t] := by
    rw [List.filter_map, show ((fun x => pyStartsWith x (rid ++ "_")) ∘ Prod.fst) =
      (fun kv : String × ReqDetails => pyStartsWith kv.1 (rid ++ "_")) from rfl, hfil]
    rfl
  have hk : pyMaxBy keyMs ((S.current_requests.map Prod.fst).filter
      (fun x => pyStartsWith x (rid ++ "_"))) = some (mkKey rid t) := by
    rw [hkeys]
    rfl
  have hkv : pyMaxBy (fun kv => keyMs kv.1)
      ((detectIssuesQgis line now S).current_requests.filter
        (fun kv => pyStartsWith kv.1 (rid ++ "_"))) = some (mkKey rid t, d) := by
    rw [detectIssuesQgis_cur, hfil]
    rfl
  rw [parse_finished_eq line rid rt now S hrid hfin ht hrt,
    stTracked_plain line rid now S (mkKey rid t) hrid hacc hmap huser hlay hreq hk,
    closeRequest_spec rid rt now _ _ hkv]
  refine ⟨rfl, ?_, ?_⟩
  · show dictDel (detectIssuesQgis line now S).current_requests (mkKey rid t, d).1 =
      dictDel S.current_requests (mkKey rid t)
    rw [detectIssuesQgis_cur]
  · show add_to_slowest rt now rid d (detectIssuesQgis line now S).slowest_requests =
      add_to_slowest rt now rid d S.slowest_requests
    rw [detectIssuesQgis_slowest]

/-- C1: two requests with the same raw identifier, the second discovered
at a strictly later millisecond, are tracked under distinct composite
keys; a completion line then closes the most recent of the two, carrying
exactly that entry's metadata (here fed to the slowest-list update), and
a second completion line closes the remaining older entry with its own
metadata — no cross-contamination between the two entries. -/
theorem C1_recycled_id_independent (rid : String) (t1 t2 t3 t4 rt2 rt1 : Nat)
    (d1 d2 : ReqDetails) (st : PoolState) (line2 line1 : Line)
    (hdig : ∀ c ∈ rid.data, c.isDigit = true)
    (h12 : t1 < t2)
    (hcur : st.current_requests = [(mkKey rid t1, d1), (mkKey rid t2, d2)])
    (hrid2 : line2.requestId = some rid)
    (hfin2 : (pyIn "Request finished" line2.raw || pyIn "request finished" line2.raw) = true)
    (ht2 : line2.timeMatch = some rt2) (hrt2 : 0 < rt2)
    (hacc2 : pyIn "QGIS Request accepted" line2.raw = false)
    (hmap2 : pyIn "MAP:" line2.raw = false)
    (huser2 : pyIn "LIZMAP_USER:" line2.raw = false)
    (hlay2 : pyIn "LAYERS:" line2.raw = false)
    (hreq2 : pyIn "REQUEST:" line2.raw = false)
    (hrid1 : line1.requestId = some rid)
    (hfin1 : (pyIn "Request finished" line1.raw || pyIn "request finished" line1.raw) = true)
    (ht1 : line1.timeMatch = some rt1) (hrt1 : 0 < rt1)
    (hacc1 : pyIn "QGIS Request accepted" line1.raw = false)
    (hmap1 : pyIn "MAP:" line1.raw = false)
    (huser1 : pyIn "LIZMAP_USER:" line1.raw = false)
    (hlay1 : pyIn "LAYERS:" line1.raw = false)
    (hreq1 : pyIn "REQUEST:" line1.raw = false) :
    mkKey rid t1 ≠ mkKey rid t2 ∧
    (parse_qgis_log_line line2 t3 st).closed = some (mkKey rid t2, d2) ∧
    (parse_qgis_log_line line2 t3 st).state.current_requests = [(mkKey rid t1, d1)] ∧
    (parse_qgis_log_line line2 t3 st).state.slowest_requests =
      add_to_slowest rt2 t3 rid d2 st.slowest_requests ∧
    (parse_qgis_log_line line1 t4 (parse_qgis_log_line line2 t3 st).state).closed =
      some (mkKey rid t1, d1) ∧
    (parse_qgis_log_line line1 t4
      (parse_qgis_log_line line2 t3 st).state).state.current_requests = [] := by
  have hne12 : mkKey rid t1 ≠ mkKey rid t2 := mkKey_ne hdig (Nat.ne_of_lt h12)
  have hfilkeys : (st.current_requests.map Prod.fst).filter
      (fun x => pyStartsWith x (rid ++ "_")) = [mkKey rid t1, mkKey rid t2] := by
    rw [hcur]
    simp [pyStartsWith_mkKey]
  have hk : pyMaxBy keyMs ((st.current_requests.map Prod.fst).filter
      (fun x => pyStartsWith x (rid ++ "_"))) = some (mkKey rid t2) := by
    rw [hfilkeys]
    simp only [pyMaxBy, List.foldl_cons, List.foldl_nil]
    rw [keyMs_mkKey rid t1 hdig, keyMs_mkKey rid t2 hdig, if_pos h12]
  have hkv : pyMaxBy (fun kv => keyMs kv.1)
      ((detectIssuesQgis line2 t3 st).current_requests.filter
        (fun kv => pyStartsWith kv.1 (rid ++ "_"))) = some (mkKey rid t2, d2) := by
    rw [detectIssuesQgis_cur, hcur]
    have hfil2 : List.filter (fun kv : String × ReqDetails => pyStartsWith kv.1 (rid ++ "_"))
        [(mkKey rid t1, d1), (mkKey rid t2, d2)] =
        [(mkKey rid t1, d1), (mkKey rid t2, d2)] := by
      simp [pyStartsWith_mkKey]
    rw [hfil2]
    simp only [pyMaxBy, List.foldl_cons, List.foldl_nil]
    dsimp only
    rw [keyMs_mkKey rid t1 hdig, keyMs_mkKey rid t2 hdig, if_pos h12]
  have hP2 : parse_qgis_log_line line2 t3 st =
      closeRequest rid rt2 t3 (detectIssuesQgis line2 t3 st) := by
    rw [parse_finished_eq line2 rid rt2 t3 st hrid2 hfin2 ht2 hrt2,
      stTracked_plain line2 rid t3 st (mkKey rid t2) hrid2 hacc2 hmap2 huser2 hlay2 hreq2 hk]
  have hCR := closeRequest_spec rid rt2 t3 (detectIssuesQgis line2 t3 st) (mkKey rid t2, d2) hkv
  have hclosed2 : (parse_qgis_log_line line2 t3 st).closed = some (mkKey rid t2, d2) := by
    rw [hP2, hCR]
  have hScur : (parse_qgis_log_line line2 t3 st).state.current_requests =
      [(mkKey rid t1, d1)] := by
    rw [hP2, hCR]
    show dictDel (detectIssuesQgis line2 t3 st).current_requests (mkKey rid t2, d2).1 = _
    rw [detectIssuesQgis_cur, hcur]
    unfold dictDel
    rw [List.eraseP_cons_of_neg (by simp [hne12]), List.eraseP_cons_of_pos (by simp)]
  have hSslow : (parse_qgis_log_line line2 t3 st).state.slowest_requests =
      add_to_slowest rt2 t3 rid d2 st.slowest_requests := by
    rw [hP2, hCR]
    show add_to_slowest rt2 t3 rid (mkKey rid t2, d2).2
      (detectIssuesQgis line2 t3 st).slowest_requests = _
    rw [detectIssuesQgis_slowest]
  have hfilS : (parse_qgis_log_line line2 t3 st).state.current_requests.filter
      (fun kv => pyStartsWith kv.1 (rid ++ "_")) = [(mkKey rid t1, d1)] := by
    rw [hScur]
    simp [pyStartsWith_mkKey]
  have hc := close_filtered_single line1 rid rt1 t4 t1
    ((parse_qgis_log_line line2 t3 st).state) d1 hrid1 hfin1 ht1 hrt1
    hacc1 hmap1 huser1 hlay1 hreq1 hfilS
  refine ⟨hne12, hclosed2, hScur, hSslow, hc.1, ?_⟩
  rw [hc.2.1, hScur]
  unfold dictDel
  rw [List.eraseP_cons_of_pos (by simp)]

/-- C1 (witness): raw id 42 is recycled at strictly later milliseconds
1000000 and 1000001; the completion at 1000002 closes the later entry
(metadata `beta`) and the completion at 1000003 closes the earlier entry
(metadata `alpha`). -/
theorem C1_recycled_id_independent_witness :
    (parse_qgis_log_line
        { raw := "[42] Request finished in 8 ms", requestId := some "42", mapMatch := none,
          userMatch := none, layersMatch := none, requestMatch := none, timeMatch := some 8 }
        1000002
        { response_times := [], current_requests :=
            [(mkKey "42" 1000000,
              { map := some "alpha", user := none, layers := none, request_type := none,
                start_time := 1000000, raw_request_id := "42" }),
             (mkKey "42" 1000001,
              { map := some "beta", user := none, layers := none, request_type := none,
                start_time := 1000001, raw_request_id := "42" })],
          slowest_requests := [], requests_total := 0, errors := 0, warnings := 0,
          recent_issues := [] }).closed =
      some (mkKey "42" 1000001,
        { map := some "beta", user := none, layers := none, request_type := none,
          start_time := 1000001, raw_request_id := "42" }) ∧
    (parse_qgis_log_line
        { raw := "[42] Request finished in 9 ms", requestId := some "42", mapMatch := none,
          userMatch := none, layersMatch := none, requestMatch := none, timeMatch := some 9 }
        1000003
        (parse_qgis_log_line
          { raw := "[42] Request finished in 8 ms", requestId := some "42", mapMatch := none,
            userMatch := none, layersMatch := none, requestMatch := none, timeMatch := some 8 }
          1000002
          { response_times := [], current_requests :=
              [(mkKey "42" 1000000,
                { map := some "alpha", user := none, layers := none, request_type := none,
                  start_time := 1000000, raw_request_id := "42" }),
               (mkKey "42" 1000001,
                { map := some "beta", user := none, layers := none, request_type := none,
                  start_time := 1000001, raw_request_id := "42" })],
            slowest_requests := [], requests_total := 0, errors := 0, warnings := 0,
            recent_issues := [] }).state).closed =
      some (mkKey "42" 1000000,
        { map := some "alpha", user := none, layers := none, request_type := none,
          start_time := 1000000, raw_request_id := "42" }) := by
  have h := C1_recycled_id_independent "42" 1000000 1000001 1000002 1000003 8 9
    { map := some "alpha", user := none, layers := none, request_type := none,
      start_time := 1000000, raw_request_id := "42" }
    { map := some "beta", user := none, layers := none, request_type := none,
      start_time := 1000001, raw_request_id := "42" }
    { response_times := [], current_requests :=
        [(mkKey "42" 1000000,
          { map := some "alpha", user := none, layers := none, request_type := none,
            start_time := 1000000, raw_request_id := "42" }),
         (mkKey "42" 1000001,
          { map := some "beta", user := none, layers := none, request_type := none,
            start_time := 1000001, raw_request_id := "42" })],
      slowest_requests := [], requests_total := 0, errors := 0, warnings := 0,
      recent_issues := [] }
    { raw := "[42] Request finished in 8 ms", requestId := some "42", mapMatch := none,
      userMatch := none, layersMatch := none, requestMatch := none, timeMatch := some 8 }
    { raw := "[42] Request finished in 9 ms", requestId := some "42", mapMatch := none,
      userMatch := none, layersMatch := none, requestMatch := none, timeMatch := some 9 }
    (by decide) (by decide) rfl rfl (by decide) rfl (by decide) (by decide) (by decide)
    (by decide) (by decide) rfl (by decide) rfl (by decide) (by decide) (by decide)
    (by decide) (by decide) (by decide) (by decide)
  exact ⟨h.2.1, h.2.2.2.2.1⟩

theorem stTracked_mapline (line : Line) (rid path : String) (now : Nat) (st : PoolState)
    (hrid : line.requestId = some rid)
    (hmapin : pyIn "MAP:" line.raw = true)
    (hmm : line.mapMatch = some path)
    (hnone : ∀ kv ∈ st.current_requests, pyIn rid kv.1 = false) :
    (stTracked line now st).current_requests =
      st.current_requests ++ [(mkKey rid now,
        { map := some (projectNameOfPath path), user := none, layers := none,
          request_type := none, start_time := now, raw_request_id := rid })] := by
  have hany : (st.current_requests.any (fun kv => pyIn rid kv.1)) = false := by
    cases ha : st.current_requests.any (fun kv => pyIn rid kv.1)
    · rfl
    · rw [List.any_eq_true] at ha
      obtain ⟨kv, hkv, hp⟩ := ha
      rw [hnone kv hkv] at hp
      exact absurd hp (by simp)
  have hsetne : (st.current_requests.any (fun kv => kv.1 == mkKey rid now)) = false := by
    cases ha : st.current_requests.any (fun kv => kv.1 == mkKey rid now)
    · rfl
    · rw [List.any_eq_true] at ha
      obtain ⟨kv, hkv, hp⟩ := ha
      have heq := eq_of_beq hp
      have hin := hnone kv hkv
      rw [heq, pyIn_rid_mkKey] at hin
      exact absurd hin (by simp)
  unfold stTracked
  rw [hrid]
  dsimp only
  rw [detectIssuesQgis_cur]
  unfold trackRequest
  have hfind : trackFind rid line now st.current_requests =
      (mkKey rid now, st.current_requests ++ [(mkKey rid now, freshDetails now rid)]) := by
    unfold trackFind
    rw [hmapin, hany]
    simp only [Bool.not_false, Bool.and_true, Bool.or_true, if_true]
    unfold dictSet
    rw [hsetne]
    simp
  rw [hfind]
  unfold trackFields
  dsimp only
  rw [hmapin]
  simp only [if_true]
  rw [hmm]
  dsimp only
  unfold dictUpdate
  rw [List.map_append]
  congr 1
  · conv_rhs => rw [← List.map_id st.current_requests]
    apply List.map_congr_left
    intro kv hkv
    have hb : (kv.1 == mkKey rid now) = false := by
      cases hb : kv.1 == mkKey rid now
      · rfl
      · have heq := eq_of_beq hb
        have hin := hnone kv hkv
        rw [heq, pyIn_rid_mkKey] at hin
        exact absurd hin (by simp)
    simp [hb]
  · simp [freshDetails]

/-- C8 (counterexample): for the MAP path `/a/my.qgs.qgs` the code
derives the project name `"my"` — `replace('.qgs', '')` removes *every*
occurrence of `.qgs` — whereas "last path segment with its extension
stripped" is `"my.qgs"`: the completed request does not carry the
spec-described name. -/
theorem C8_counterexample :
    (parse_qgis_log_line
        { raw := "[42] Request finished in 6 ms", requestId := some "42", mapMatch := none,
          userMatch := none, layersMatch := none, requestMatch := none, timeMatch := some 6 }
        1000001
        (parse_qgis_log_line
          { raw := "[42] MAP:/a/my.qgs.qgs", requestId := some "42",
            mapMatch := some "/a/my.qgs.qgs", userMatch := none, layersMatch := none,
            requestMatch := none, timeMatch := none }
          1000000 initialPoolState).state).closed =
      some (mkKey "42" 1000000,
        { map := some "my", user := none, layers := none, request_type := none,
          start_time := 1000000, raw_request_id := "42" }) ∧
    specProjectName "/a/my.qgs.qgs" = "my.qgs" ∧
    ("my" : String) ≠ specProjectName "/a/my.qgs.qgs" := by
  refine ⟨by decide, by decide, by decide⟩

/-- C8 (amended): a MAP line opening a fresh request for a raw id with
no pending entry containing that id, followed by a finished line for the
same raw id with elapsed > 0 and no intervening markers, produces a
completed request whose project is the last path segment of the MAP path
with **every occurrence** of the substring `.qgs` removed (the code uses
`replace('.qgs', '')`, not a trailing-extension strip). -/
theorem C8_map_project_name (line1 line2 : Line) (rid path : String) (t1 t2 rt : Nat)
    (st : PoolState)
    (hnone : ∀ kv ∈ st.current_requests, pyIn rid kv.1 = false)
    (hrid1 : line1.requestId = some rid)
    (hmapin : pyIn "MAP:" line1.raw = true)
    (hmm : line1.mapMatch = some path)
    (hfin1 : (pyIn "Request finished" line1.raw || pyIn "request finished" line1.raw) = false)
    (hrid2 : line2.requestId = some rid)
    (hfin2 : (pyIn "Request finished" line2.raw || pyIn "request finished" line2.raw) = true)
    (ht2 : line2.timeMatch = some rt) (hrt : 0 < rt)
    (hacc2 : pyIn "QGIS Request accepted" line2.raw = false)
    (hmap2 : pyIn "MAP:" line2.raw = false)
    (huser2 : pyIn "LIZMAP_USER:" line2.raw = false)
    (hlay2 : pyIn "LAYERS:" line2.raw = false)
    (hreq2 : pyIn "REQUEST:" line2.raw = false) :
    (parse_qgis_log_line line2 t2 (parse_qgis_log_line line1 t1 st).state).closed =
      some (mkKey rid t1,
        { map := some (projectNameOfPath path), user := none, layers := none,
          request_type := none, start_time := t1, raw_request_id := rid }) := by
  have hP1 : parse_qgis_log_line line1 t1 st = noFinish t1 (stTracked line1 t1 st) :=
    parse_notfinished_eq line1 t1 st hfin1
  have hScur : (parse_qgis_log_line line1 t1 st).state.current_requests =
      sweepOld t1 st.current_requests ++ [(mkKey rid t1,
        { map := some (projectNameOfPath path), user := none, layers := none,
          request_type := none, start_time := t1, raw_request_id := rid })] := by
    rw [hP1]
    show sweepOld t1 (stTracked line1 t1 st).current_requests = _
    rw [stTracked_mapline line1 rid path t1 st hrid1 hmapin hmm hnone]
    unfold sweepOld
    rw [List.filter_append]
    have hcond : ¬ (t1 < t1 - REQUEST_TRACKING_TIMEOUT_MS) := by
      have hsub := Nat.sub_le t1 REQUEST_TRACKING_TIMEOUT_MS
      omega
    simp [hcond]
  have hfilS : (parse_qgis_log_line line1 t1 st).state.current_requests.filter
      (fun kv => pyStartsWith kv.1 (rid ++ "_")) =
      [(mkKey rid t1,
        { map := some (projectNameOfPath path), user := none, layers := none,
          request_type := none, start_time := t1, raw_request_id := rid })] := by
    rw [hScur, List.filter_append]
    have h1 : (sweepOld t1 st.current_requests).filter
        (fun kv => pyStartsWith kv.1 (rid ++ "_")) = [] := by
      rw [List.filter_eq_nil_iff]
      intro kv hkv
      have hmem : kv ∈ st.current_requests := (List.mem_filter.1 hkv).1
      rw [startsKey_eq_false (hnone kv hmem)]
      simp
    rw [h1]
    simp [pyStartsWith_mkKey]
  exact (close_filtered_single line2 rid rt t2 t1 ((parse_qgis_log_line line1 t1 st).state)
    { map := some (projectNameOfPath path), user := none, layers := none,
      request_type := none, start_time := t1, raw_request_id := rid }
    hrid2 hfin2 ht2 hrt hacc2 hmap2 huser2 hlay2 hreq2 hfilS).1

/-- C8 (witness): the MAP line `/srv/projects/demo.qgs` followed by a
finished line for raw id 42 yields a completed request carrying project
`demo`. -/
theorem C8_map_project_name_witness :
    (parse_qgis_log_line
        { raw := "[42] Request finished in 6 ms", requestId := some "42", mapMatch := none,
          userMatch := none, layersMatch := none, requestMatch := none, timeMatch := some 6 }
        1000001
        (parse_qgis_log_line
          { raw := "[42] MAP:/srv/projects/demo.qgs", requestId := some "42",
            mapMatch := some "/srv/projects/demo.qgs", userMatch := none, layersMatch := none,
            requestMatch := none, timeMatch := none }
          1000000 initialPoolState).state).closed =
      some (mkKey "42" 1000000,
        { map := some (projectNameOfPath "/srv/projects/demo.qgs"), user := none,
          layers := none, request_type := none, start_time := 1000000,
          raw_request_id := "42" }) := by
  exact C8_map_project_name
    { raw := "[42] MAP:/srv/projects/demo.qgs", requestId := some "42",
      mapMatch := some "/srv/projects/demo.qgs", userMatch := none, layersMatch := none,
      requestMatch := none, timeMatch := none }
    { raw := "[42] Request finished in 6 ms", requestId := some "42", mapMatch := none,
      userMatch := none, layersMatch := none, requestMatch := none, timeMatch := some 6 }
    "42" "/srv/projects/demo.qgs" 1000000 1000001 6 initialPoolState
    (by intro kv hkv; simp [initialPoolState] at hkv)
    rfl (by decide) rfl (by decide) rfl (by decide) rfl (by decide) (by decide) (by decide)
    (by decide) (by decide) (by decide)
